import Mathlib

/-!
# DirectFB2 public header: pixel format registry, flag masks, interfaces

A shallow embedding of the constant-expression layer of `include/directfb.h`:
the packed pixel format encoding (`DFB_SURFACE_PIXELFORMAT`), the
`DFBSurfacePixelFormat` enumeration, the field extraction macros, the colour
space helpers and the flag enumerations with an "all" mask.  The header also
declares the surface and event buffer interfaces; their documented behaviour
is modelled in the section "Interface behaviour".

C `int` / enum values are embedded as natural numbers holding the 32-bit
pattern of the value.  The encoding and extraction macros only mask, shift and
or, so their result stays below `2 ^ 32` without an explicit reduction (lemma
`DFB_SURFACE_PIXELFORMAT_lt`); `DFB_PLANE_MULTIPLY`, which multiplies, comes in
unbounded arithmetic, as `DFB_PLANE_MULTIPLY_32` (the 32-bit pattern of the
product) and as `DFB_PLANE_MULTIPLY_int` (the signed `int` evaluation, with an
arithmetic shift).  A C truth value (`x ? 1 : 0`, `x != 0`, `a == b`, `||`,
`&&`) is embedded as `Bool`; a macro argument that C tests with `? :` is a
number and is tested against `0`.
-/

namespace DirectFB

/-! ## Acceleration mask (`DFBAccelerationMask`) -/

def DFXL_NONE : Nat := 0x00000000
def DFXL_FILLRECTANGLE : Nat := 0x00000001
def DFXL_DRAWRECTANGLE : Nat := 0x00000002
def DFXL_DRAWLINE : Nat := 0x00000004
def DFXL_FILLTRIANGLE : Nat := 0x00000008
def DFXL_FILLTRAPEZOID : Nat := 0x00000010
def DFXL_FILLQUADRANGLE : Nat := 0x00000020
def DFXL_DRAWMONOGLYPH : Nat := 0x00001000
def DFXL_BLIT : Nat := 0x00010000
def DFXL_STRETCHBLIT : Nat := 0x00020000
def DFXL_TEXTRIANGLES : Nat := 0x00040000
def DFXL_BLIT2 : Nat := 0x00080000
def DFXL_DRAWSTRING : Nat := 0x01000000
def DFXL_ALL : Nat := 0x010F003F
def DFXL_ALL_DRAW : Nat := 0x0000103F
def DFXL_ALL_BLIT : Nat := 0x010F0000

/-- Every individual function flag of `DFBAccelerationMask`, in declaration
order (the members other than `DFXL_NONE` and the three `DFXL_ALL*` masks). -/
def accelerationFunctionFlags : List Nat :=
  [DFXL_FILLRECTANGLE, DFXL_DRAWRECTANGLE, DFXL_DRAWLINE, DFXL_FILLTRIANGLE,
   DFXL_FILLTRAPEZOID, DFXL_FILLQUADRANGLE, DFXL_DRAWMONOGLYPH, DFXL_BLIT,
   DFXL_STRETCHBLIT, DFXL_TEXTRIANGLES, DFXL_BLIT2, DFXL_DRAWSTRING]

/-- The macro `DFB_DRAWING_FUNCTION(a)`, `((a) & 0x0000FFFF)`. -/
def DFB_DRAWING_FUNCTION (a : Nat) : Nat := a &&& 0x0000FFFF

/-- The macro `DFB_BLITTING_FUNCTION(a)`, `((a) & 0xFFFF0000)`. -/
def DFB_BLITTING_FUNCTION (a : Nat) : Nat := a &&& 0xFFFF0000

/-! ## Surface capabilities (`DFBSurfaceCapabilities`) -/

def DSCAPS_NONE : Nat := 0x00000000
def DSCAPS_PRIMARY : Nat := 0x00000001
def DSCAPS_SYSTEMONLY : Nat := 0x00000002
def DSCAPS_VIDEOONLY : Nat := 0x00000004
def DSCAPS_GL : Nat := 0x00000008
def DSCAPS_DOUBLE : Nat := 0x00000010
def DSCAPS_SUBSURFACE : Nat := 0x00000020
def DSCAPS_INTERLACED : Nat := 0x00000040
def DSCAPS_SEPARATED : Nat := 0x00000080
def DSCAPS_STATIC_ALLOC : Nat := 0x00000100
def DSCAPS_TRIPLE : Nat := 0x00000200
def DSCAPS_PREMULTIPLIED : Nat := 0x00001000
def DSCAPS_DEPTH : Nat := 0x00010000
def DSCAPS_STEREO : Nat := 0x00020000
def DSCAPS_SHARED : Nat := 0x00100000
def DSCAPS_ROTATED : Nat := 0x01000000
def DSCAPS_ALL : Nat := 0x011113FF
def DSCAPS_FLIPPING : Nat := DSCAPS_DOUBLE ||| DSCAPS_TRIPLE

/-- Every individual capability flag of `DFBSurfaceCapabilities`, in
declaration order (the members other than `DSCAPS_NONE`, `DSCAPS_ALL` and the
combination `DSCAPS_FLIPPING`). -/
def surfaceCapabilityFlags : List Nat :=
  [DSCAPS_PRIMARY, DSCAPS_SYSTEMONLY, DSCAPS_VIDEOONLY, DSCAPS_GL, DSCAPS_DOUBLE,
   DSCAPS_SUBSURFACE, DSCAPS_INTERLACED, DSCAPS_SEPARATED, DSCAPS_STATIC_ALLOC,
   DSCAPS_TRIPLE, DSCAPS_PREMULTIPLIED, DSCAPS_DEPTH, DSCAPS_STEREO, DSCAPS_SHARED,
   DSCAPS_ROTATED]

/-- Bitwise OR of a list of flags. -/
def orAll (flags : List Nat) : Nat := flags.foldl (· ||| ·) 0

/-- Complement of a 32-bit pattern, the C operator `~` on a 32-bit value. -/
def not32 (x : Nat) : Nat := (2 ^ 32 - 1) ^^^ (x % 2 ^ 32)

/-! ## Packed pixel format encoding -/

/-- The macro `DFB_SURFACE_PIXELFORMAT`: eleven masked fields, shifted to their
position and combined with `|`. -/
def DFB_SURFACE_PIXELFORMAT (index color_bits alpha_bits has_alpha row_bits row_bytes
    align mul_f mul_d has_lut inv_alpha : Nat) : Nat :=
  (index &&& 0x7F) |||
  ((color_bits &&& 0x1F) <<< 7) |||
  ((alpha_bits &&& 0x0F) <<< 12) |||
  ((if has_alpha ≠ 0 then 1 else 0) <<< 16) |||
  ((row_bits &&& 0x07) <<< 17) |||
  ((row_bytes &&& 0x07) <<< 20) |||
  ((align &&& 0x07) <<< 23) |||
  ((mul_f &&& 0x03) <<< 26) |||
  ((mul_d &&& 0x03) <<< 28) |||
  ((if has_lut ≠ 0 then 1 else 0) <<< 30) |||
  ((if inv_alpha ≠ 0 then 1 else 0) <<< 31)

/-- The eleven operands of the `|` chain of `DFB_SURFACE_PIXELFORMAT`, in
source order. -/
def pixelformatTerms (index color_bits alpha_bits has_alpha row_bits row_bytes
    align mul_f mul_d has_lut inv_alpha : Nat) : List Nat :=
  [index &&& 0x7F,
   (color_bits &&& 0x1F) <<< 7,
   (alpha_bits &&& 0x0F) <<< 12,
   (if has_alpha ≠ 0 then 1 else 0) <<< 16,
   (row_bits &&& 0x07) <<< 17,
   (row_bytes &&& 0x07) <<< 20,
   (align &&& 0x07) <<< 23,
   (mul_f &&& 0x03) <<< 26,
   (mul_d &&& 0x03) <<< 28,
   (if has_lut ≠ 0 then 1 else 0) <<< 30,
   (if inv_alpha ≠ 0 then 1 else 0) <<< 31]

/-- The bit range of each operand: its field mask moved to the field position
(`0x7F`, `0x1F << 7`, `0x0F << 12`, `1 << 16`, ...). -/
def pixelformatMasks : List Nat :=
  [0x7F, 0xF80, 0xF000, 0x10000, 0xE0000, 0x700000, 0x3800000, 0xC000000,
   0x30000000, 0x40000000, 0x80000000]

/-! ## Pixel formats (`DFBSurfacePixelFormat`) -/

def DSPF_UNKNOWN : Nat := 0x00000000
def DSPF_ARGB1555 : Nat := DFB_SURFACE_PIXELFORMAT 0 15 1 1 0 2 0 0 0 0 0
def DSPF_RGB16 : Nat := DFB_SURFACE_PIXELFORMAT 1 16 0 0 0 2 0 0 0 0 0
def DSPF_RGB24 : Nat := DFB_SURFACE_PIXELFORMAT 2 24 0 0 0 3 0 0 0 0 0
def DSPF_RGB32 : Nat := DFB_SURFACE_PIXELFORMAT 3 24 0 0 0 4 0 0 0 0 0
def DSPF_ARGB : Nat := DFB_SURFACE_PIXELFORMAT 4 24 8 1 0 4 0 0 0 0 0
def DSPF_A8 : Nat := DFB_SURFACE_PIXELFORMAT 5 0 8 1 0 1 0 0 0 0 0
def DSPF_YUY2 : Nat := DFB_SURFACE_PIXELFORMAT 6 16 0 0 0 2 0 0 0 0 0
def DSPF_RGB332 : Nat := DFB_SURFACE_PIXELFORMAT 7 8 0 0 0 1 0 0 0 0 0
def DSPF_UYVY : Nat := DFB_SURFACE_PIXELFORMAT 8 16 0 0 0 2 0 0 0 0 0
def DSPF_I420 : Nat := DFB_SURFACE_PIXELFORMAT 9 12 0 0 0 1 0 2 0 0 0
def DSPF_YV12 : Nat := DFB_SURFACE_PIXELFORMAT 10 12 0 0 0 1 0 2 0 0 0
def DSPF_LUT8 : Nat := DFB_SURFACE_PIXELFORMAT 11 8 0 1 0 1 0 0 0 1 0
def DSPF_ALUT44 : Nat := DFB_SURFACE_PIXELFORMAT 12 4 4 1 0 1 0 0 0 1 0
def DSPF_AiRGB : Nat := DFB_SURFACE_PIXELFORMAT 13 24 8 1 0 4 0 0 0 0 1
def DSPF_A1 : Nat := DFB_SURFACE_PIXELFORMAT 14 0 1 1 1 0 7 0 0 0 0
def DSPF_NV12 : Nat := DFB_SURFACE_PIXELFORMAT 15 12 0 0 0 1 0 2 0 0 0
def DSPF_NV16 : Nat := DFB_SURFACE_PIXELFORMAT 16 16 0 0 0 1 0 0 1 0 0
def DSPF_ARGB2554 : Nat := DFB_SURFACE_PIXELFORMAT 17 14 2 1 0 2 0 0 0 0 0
def DSPF_ARGB4444 : Nat := DFB_SURFACE_PIXELFORMAT 18 12 4 1 0 2 0 0 0 0 0
def DSPF_RGBA4444 : Nat := DFB_SURFACE_PIXELFORMAT 19 12 4 1 0 2 0 0 0 0 0
def DSPF_NV21 : Nat := DFB_SURFACE_PIXELFORMAT 20 12 0 0 0 1 0 2 0 0 0
def DSPF_AYUV : Nat := DFB_SURFACE_PIXELFORMAT 21 24 8 1 0 4 0 0 0 0 0
def DSPF_A4 : Nat := DFB_SURFACE_PIXELFORMAT 22 0 4 1 4 0 1 0 0 0 0
def DSPF_ARGB1666 : Nat := DFB_SURFACE_PIXELFORMAT 23 18 1 1 0 3 0 0 0 0 0
def DSPF_ARGB6666 : Nat := DFB_SURFACE_PIXELFORMAT 24 18 6 1 0 3 0 0 0 0 0
def DSPF_RGB18 : Nat := DFB_SURFACE_PIXELFORMAT 25 18 0 0 0 3 0 0 0 0 0
def DSPF_LUT2 : Nat := DFB_SURFACE_PIXELFORMAT 26 2 0 1 2 0 3 0 0 1 0
def DSPF_RGB444 : Nat := DFB_SURFACE_PIXELFORMAT 27 12 0 0 0 2 0 0 0 0 0
def DSPF_RGB555 : Nat := DFB_SURFACE_PIXELFORMAT 28 15 0 0 0 2 0 0 0 0 0
def DSPF_BGR555 : Nat := DFB_SURFACE_PIXELFORMAT 29 15 0 0 0 2 0 0 0 0 0
def DSPF_RGBA5551 : Nat := DFB_SURFACE_PIXELFORMAT 30 15 1 1 0 2 0 0 0 0 0
def DSPF_Y444 : Nat := DFB_SURFACE_PIXELFORMAT 31 24 0 0 0 1 0 0 2 0 0
def DSPF_ARGB8565 : Nat := DFB_SURFACE_PIXELFORMAT 32 16 8 1 0 3 0 0 0 0 0
def DSPF_AVYU : Nat := DFB_SURFACE_PIXELFORMAT 33 24 8 1 0 4 0 0 0 0 0
def DSPF_VYU : Nat := DFB_SURFACE_PIXELFORMAT 34 24 0 0 0 3 0 0 0 0 0
def DSPF_A1_LSB : Nat := DFB_SURFACE_PIXELFORMAT 35 0 1 1 1 0 7 0 0 0 0
def DSPF_YV16 : Nat := DFB_SURFACE_PIXELFORMAT 36 16 0 0 0 1 0 0 1 0 0
def DSPF_ABGR : Nat := DFB_SURFACE_PIXELFORMAT 37 24 8 1 0 4 0 0 0 0 0
def DSPF_RGBAF88871 : Nat := DFB_SURFACE_PIXELFORMAT 38 24 7 1 0 4 0 0 0 0 0
def DSPF_LUT4 : Nat := DFB_SURFACE_PIXELFORMAT 39 4 0 1 4 0 1 0 0 1 0
def DSPF_ALUT8 : Nat := DFB_SURFACE_PIXELFORMAT 40 8 8 1 0 2 0 0 0 1 0
def DSPF_LUT1 : Nat := DFB_SURFACE_PIXELFORMAT 41 1 0 1 1 0 7 0 0 1 0
def DSPF_NV61 : Nat := DFB_SURFACE_PIXELFORMAT 42 16 0 0 0 1 0 0 1 0 0
def DSPF_Y42B : Nat := DFB_SURFACE_PIXELFORMAT 43 16 0 0 0 1 0 0 1 0 0
def DSPF_YV24 : Nat := DFB_SURFACE_PIXELFORMAT 44 24 0 0 0 1 0 0 2 0 0

/-- Every member of `DFBSurfacePixelFormat` other than `DSPF_UNKNOWN`, in
declaration order. -/
def definedPixelFormats : List Nat :=
  [DSPF_ARGB1555, DSPF_RGB16, DSPF_RGB24, DSPF_RGB32, DSPF_ARGB, DSPF_A8, DSPF_YUY2,
   DSPF_RGB332, DSPF_UYVY, DSPF_I420, DSPF_YV12, DSPF_LUT8, DSPF_ALUT44, DSPF_AiRGB,
   DSPF_A1, DSPF_NV12, DSPF_NV16, DSPF_ARGB2554, DSPF_ARGB4444, DSPF_RGBA4444,
   DSPF_NV21, DSPF_AYUV, DSPF_A4, DSPF_ARGB1666, DSPF_ARGB6666, DSPF_RGB18, DSPF_LUT2,
   DSPF_RGB444, DSPF_RGB555, DSPF_BGR555, DSPF_RGBA5551, DSPF_Y444, DSPF_ARGB8565,
   DSPF_AVYU, DSPF_VYU, DSPF_A1_LSB, DSPF_YV16, DSPF_ABGR, DSPF_RGBAF88871, DSPF_LUT4,
   DSPF_ALUT8, DSPF_LUT1, DSPF_NV61, DSPF_Y42B, DSPF_YV24]

/-- The macro `DFB_NUM_PIXELFORMATS`, "Number of pixelformats defined". -/
def DFB_NUM_PIXELFORMATS : Nat := 45

/-! ## Field extraction macros -/

def DFB_PIXELFORMAT_INDEX (fmt : Nat) : Nat := fmt &&& 0x0000007F

def DFB_COLOR_BITS_PER_PIXEL (fmt : Nat) : Nat := (fmt &&& 0x00000F80) >>> 7

def DFB_ALPHA_BITS_PER_PIXEL (fmt : Nat) : Nat := (fmt &&& 0x0000F000) >>> 12

def DFB_PIXELFORMAT_HAS_ALPHA (fmt : Nat) : Bool := (fmt &&& 0x00010000) != 0

def DFB_BITS_PER_PIXEL (fmt : Nat) : Nat := (fmt &&& 0x007E0000) >>> 17

def DFB_BYTES_PER_PIXEL (fmt : Nat) : Nat := (fmt &&& 0x00700000) >>> 20

/-- The macro `DFB_BYTES_PER_LINE(fmt,width)`,
`(((((fmt) & 0x007E0000) >> 17) * (width) + 7) >> 3)`, in unbounded
arithmetic. -/
def DFB_BYTES_PER_LINE (fmt width : Nat) : Nat :=
  (((fmt &&& 0x007E0000) >>> 17) * width + 7) >>> 3

def DFB_PIXELFORMAT_ALIGNMENT (fmt : Nat) : Nat := (fmt &&& 0x03800000) >>> 23

/-- The sub-expression `((fmt) & 0x3C000000) >> 26` of `DFB_PLANE_MULTIPLY`:
fields h and j of the encoding, the plane multiplier minus one in quarters. -/
def planeMultiplierBits (fmt : Nat) : Nat := (fmt &&& 0x3C000000) >>> 26

/-- The macro `DFB_PLANE_MULTIPLY(fmt,height)`,
`((((((fmt) & 0x3C000000) >> 26) + 4) * (height)) >> 2)`, in unbounded
arithmetic. -/
def DFB_PLANE_MULTIPLY (fmt height : Nat) : Nat :=
  ((planeMultiplierBits fmt + 4) * height) >>> 2

def DFB_PIXELFORMAT_IS_INDEXED (fmt : Nat) : Bool := (fmt &&& 0x40000000) != 0

def DFB_PLANAR_PIXELFORMAT (fmt : Nat) : Bool := (fmt &&& 0x3C000000) != 0

def DFB_PIXELFORMAT_INV_ALPHA (fmt : Nat) : Bool := (fmt &&& 0x80000000) != 0

/-- The eleven arguments of `DFB_SURFACE_PIXELFORMAT` read back from a packed
value with the extraction macros, re-encoded with `DFB_SURFACE_PIXELFORMAT`.
Row bits are `DFB_BITS_PER_PIXEL & 7`; the two plane multiplier fields are
the low and high two bits of `planeMultiplierBits`; a C truth value is passed
back as `0` or `1`. -/
def reencode (fmt : Nat) : Nat :=
  DFB_SURFACE_PIXELFORMAT
    (DFB_PIXELFORMAT_INDEX fmt)
    (DFB_COLOR_BITS_PER_PIXEL fmt)
    (DFB_ALPHA_BITS_PER_PIXEL fmt)
    (DFB_PIXELFORMAT_HAS_ALPHA fmt).toNat
    (DFB_BITS_PER_PIXEL fmt &&& 7)
    (DFB_BYTES_PER_PIXEL fmt)
    (DFB_PIXELFORMAT_ALIGNMENT fmt)
    (planeMultiplierBits fmt &&& 3)
    (planeMultiplierBits fmt >>> 2)
    (DFB_PIXELFORMAT_IS_INDEXED fmt).toNat
    (DFB_PIXELFORMAT_INV_ALPHA fmt).toNat

/-! ## Colour classes and colour spaces -/

def DFB_COLOR_IS_RGB (fmt : Nat) : Bool :=
  fmt == DSPF_ARGB1555 ||
  fmt == DSPF_RGB16 ||
  fmt == DSPF_RGB24 ||
  fmt == DSPF_RGB32 ||
  fmt == DSPF_ARGB ||
  fmt == DSPF_RGB332 ||
  fmt == DSPF_AiRGB ||
  fmt == DSPF_ARGB2554 ||
  fmt == DSPF_ARGB4444 ||
  fmt == DSPF_RGBA4444 ||
  fmt == DSPF_ARGB1666 ||
  fmt == DSPF_ARGB6666 ||
  fmt == DSPF_RGB18 ||
  fmt == DSPF_RGB444 ||
  fmt == DSPF_RGB555 ||
  fmt == DSPF_BGR555 ||
  fmt == DSPF_ARGB8565 ||
  fmt == DSPF_ABGR ||
  fmt == DSPF_RGBAF88871

def DFB_COLOR_IS_YUV (fmt : Nat) : Bool :=
  fmt == DSPF_YUY2 ||
  fmt == DSPF_UYVY ||
  fmt == DSPF_I420 ||
  fmt == DSPF_YV12 ||
  fmt == DSPF_NV12 ||
  fmt == DSPF_NV16 ||
  fmt == DSPF_NV21 ||
  fmt == DSPF_AYUV ||
  fmt == DSPF_Y444 ||
  fmt == DSPF_AVYU ||
  fmt == DSPF_VYU ||
  fmt == DSPF_YV16 ||
  fmt == DSPF_NV61 ||
  fmt == DSPF_Y42B ||
  fmt == DSPF_YV24

def DSCS_UNKNOWN : Nat := 0x00000000
def DSCS_RGB : Nat := 0x00000001
def DSCS_BT601 : Nat := 0x00000002
def DSCS_BT709 : Nat := 0x00000004
def DSCS_BT2020 : Nat := 0x00000005

/-- Every member of `DFBSurfaceColorSpace`, in declaration order. -/
def definedColorSpaces : List Nat :=
  [DSCS_UNKNOWN, DSCS_RGB, DSCS_BT601, DSCS_BT709, DSCS_BT2020]

def DFB_COLORSPACE_IS_COMPATIBLE (cs fmt : Nat) : Bool :=
  (DFB_COLOR_IS_RGB fmt && cs == DSCS_RGB) ||
  (DFB_COLOR_IS_YUV fmt && (cs == DSCS_BT601 || cs == DSCS_BT709 || cs == DSCS_BT2020))

def DFB_COLORSPACE_DEFAULT (fmt : Nat) : Nat :=
  if DFB_COLOR_IS_RGB fmt then DSCS_RGB
  else if DFB_COLOR_IS_YUV fmt then DSCS_BT601
  else DSCS_UNKNOWN

/-- The pixel formats whose documentation in the enumeration names red, green
and blue channels and no lookup table. -/
def documentedRgbFormats : List Nat :=
  [DSPF_ARGB1555, DSPF_RGB16, DSPF_RGB24, DSPF_RGB32, DSPF_ARGB, DSPF_RGB332,
   DSPF_AiRGB, DSPF_ARGB2554, DSPF_ARGB4444, DSPF_RGBA4444, DSPF_ARGB1666,
   DSPF_ARGB6666, DSPF_RGB18, DSPF_RGB444, DSPF_RGB555, DSPF_BGR555, DSPF_RGBA5551,
   DSPF_ARGB8565, DSPF_ABGR, DSPF_RGBAF88871]

/-- The pixel formats whose documentation in the enumeration names them YUV, AYUV,
AVYU or VYU. -/
def documentedYuvFormats : List Nat :=
  [DSPF_YUY2, DSPF_UYVY, DSPF_I420, DSPF_YV12, DSPF_NV12, DSPF_NV16, DSPF_NV21,
   DSPF_AYUV, DSPF_Y444, DSPF_AVYU, DSPF_VYU, DSPF_YV16, DSPF_NV61, DSPF_Y42B,
   DSPF_YV24]

/-! ## Surface description flags (`DFBSurfaceDescriptionFlags`) -/

def DSDESC_NONE : Nat := 0x00000000
def DSDESC_CAPS : Nat := 0x00000001
def DSDESC_WIDTH : Nat := 0x00000002
def DSDESC_HEIGHT : Nat := 0x00000004
def DSDESC_PIXELFORMAT : Nat := 0x00000008
def DSDESC_PREALLOCATED : Nat := 0x00000010
def DSDESC_PALETTE : Nat := 0x00000020
def DSDESC_COLORSPACE : Nat := 0x00000040
def DSDESC_RESOURCE_ID : Nat := 0x00000100
def DSDESC_HINTS : Nat := 0x00000200
def DSDESC_ALL : Nat := 0x0000037F

/-- Every member of `DFBSurfaceDescriptionFlags` other than `DSDESC_ALL`, in
declaration order. -/
def surfaceDescriptionMembers : List Nat :=
  [DSDESC_NONE, DSDESC_CAPS, DSDESC_WIDTH, DSDESC_HEIGHT, DSDESC_PIXELFORMAT,
   DSDESC_PREALLOCATED, DSDESC_PALETTE, DSDESC_COLORSPACE, DSDESC_RESOURCE_ID,
   DSDESC_HINTS]

/-! ## Surface hint flags (`DFBSurfaceHintFlags`) -/

def DSHF_NONE : Nat := 0x00000000
def DSHF_LAYER : Nat := 0x00000001
def DSHF_WINDOW : Nat := 0x00000002
def DSHF_CURSOR : Nat := 0x00000004
def DSHF_FONT : Nat := 0x00000008
def DSHF_ALL : Nat := 0x0000000F

/-- Every member of `DFBSurfaceHintFlags` other than `DSHF_ALL`, in declaration
order. -/
def surfaceHintMembers : List Nat :=
  [DSHF_NONE, DSHF_LAYER, DSHF_WINDOW, DSHF_CURSOR, DSHF_FONT]

/-! ## Surface event types (`DFBSurfaceEventType`) -/

def DSEVT_NONE : Nat := 0x00000000
def DSEVT_DESTROYED : Nat := 0x00000001
def DSEVT_UPDATE : Nat := 0x00000002
def DSEVT_ALL : Nat := 0x00000003

/-- Every member of `DFBSurfaceEventType` other than `DSEVT_ALL`, in declaration
order. -/
def surfaceEventMembers : List Nat :=
  [DSEVT_NONE, DSEVT_DESTROYED, DSEVT_UPDATE]

/-! ## Window event types (`DFBWindowEventType`) -/

def DWET_NONE : Nat := 0x00000000
def DWET_POSITION : Nat := 0x00000001
def DWET_SIZE : Nat := 0x00000002
def DWET_CLOSE : Nat := 0x00000004
def DWET_DESTROYED : Nat := 0x00000008
def DWET_GOTFOCUS : Nat := 0x00000010
def DWET_LOSTFOCUS : Nat := 0x00000020
def DWET_KEYDOWN : Nat := 0x00000100
def DWET_KEYUP : Nat := 0x00000200
def DWET_BUTTONDOWN : Nat := 0x00010000
def DWET_BUTTONUP : Nat := 0x00020000
def DWET_MOTION : Nat := 0x00040000
def DWET_ENTER : Nat := 0x00080000
def DWET_LEAVE : Nat := 0x00100000
def DWET_WHEEL : Nat := 0x00200000
def DWET_POSITION_SIZE : Nat := DWET_POSITION ||| DWET_SIZE
def DWET_UPDATE : Nat := 0x01000000
def DWET_ALL : Nat := 0x013F033F

/-- Every member of `DFBWindowEventType` other than `DWET_ALL`, in declaration
order (the combination `DWET_POSITION_SIZE` included). -/
def windowEventMembers : List Nat :=
  [DWET_NONE, DWET_POSITION, DWET_SIZE, DWET_CLOSE, DWET_DESTROYED, DWET_GOTFOCUS,
   DWET_LOSTFOCUS, DWET_KEYDOWN, DWET_KEYUP, DWET_BUTTONDOWN, DWET_BUTTONUP,
   DWET_MOTION, DWET_ENTER, DWET_LEAVE, DWET_WHEEL, DWET_POSITION_SIZE, DWET_UPDATE]

/-! ## Screen output resolutions (`DFBScreenOutputResolution`) -/

def DSOR_UNKNOWN : Nat := 0x00000000
def DSOR_640_480 : Nat := 0x00000001
def DSOR_720_480 : Nat := 0x00000002
def DSOR_720_576 : Nat := 0x00000004
def DSOR_800_600 : Nat := 0x00000008
def DSOR_1024_768 : Nat := 0x00000010
def DSOR_1152_864 : Nat := 0x00000020
def DSOR_1280_720 : Nat := 0x00000040
def DSOR_1280_768 : Nat := 0x00000080
def DSOR_1280_960 : Nat := 0x00000100
def DSOR_1280_1024 : Nat := 0x00000200
def DSOR_1400_1050 : Nat := 0x00000400
def DSOR_1600_1200 : Nat := 0x00000800
def DSOR_1920_1080 : Nat := 0x00001000
def DSOR_960_540 : Nat := 0x00002000
def DSOR_1440_540 : Nat := 0x00004000
def DSOR_800_480 : Nat := 0x00008000
def DSOR_1024_600 : Nat := 0x00010000
def DSOR_1366_768 : Nat := 0x00020000
def DSOR_1920_1200 : Nat := 0x00040000
def DSOR_2560_1440 : Nat := 0x00080000
def DSOR_2560_1600 : Nat := 0x00100000
def DSOR_3840_2160 : Nat := 0x00200000
def DSOR_4096_2160 : Nat := 0x00400000
def DSOR_ALL : Nat := 0x004FFFFF

/-- The 23 individual resolution flags of `DFBScreenOutputResolution`, in
declaration order (the members other than `DSOR_UNKNOWN` and `DSOR_ALL`). -/
def outputResolutionFlags : List Nat :=
  [DSOR_640_480, DSOR_720_480, DSOR_720_576, DSOR_800_600, DSOR_1024_768,
   DSOR_1152_864, DSOR_1280_720, DSOR_1280_768, DSOR_1280_960, DSOR_1280_1024,
   DSOR_1400_1050, DSOR_1600_1200, DSOR_1920_1080, DSOR_960_540, DSOR_1440_540,
   DSOR_800_480, DSOR_1024_600, DSOR_1366_768, DSOR_1920_1200, DSOR_2560_1440,
   DSOR_2560_1600, DSOR_3840_2160, DSOR_4096_2160]

/-! ## Display layer options (`DFBDisplayLayerOptions`) -/

def DLOP_NONE : Nat := 0x00000000
def DLOP_ALPHACHANNEL : Nat := 0x00000001
def DLOP_FLICKER_FILTERING : Nat := 0x00000002
def DLOP_DEINTERLACING : Nat := 0x00000004
def DLOP_SRC_COLORKEY : Nat := 0x00000008
def DLOP_DST_COLORKEY : Nat := 0x00000010
def DLOP_OPACITY : Nat := 0x00000020
def DLOP_FIELD_PARITY : Nat := 0x00000040
def DLOP_LR_MONO : Nat := 0x00000100
def DLOP_STEREO : Nat := 0x00000200
def DLOP_ALL : Nat := 0x000003FF

/-- The nine individual options of `DFBDisplayLayerOptions`, in declaration
order (the members other than `DLOP_NONE` and `DLOP_ALL`). -/
def displayLayerOptionFlags : List Nat :=
  [DLOP_ALPHACHANNEL, DLOP_FLICKER_FILTERING, DLOP_DEINTERLACING, DLOP_SRC_COLORKEY,
   DLOP_DST_COLORKEY, DLOP_OPACITY, DLOP_FIELD_PARITY, DLOP_LR_MONO, DLOP_STEREO]

/-! ## Documented storage sizes and chroma layouts -/

/-- The formats whose comment in the enumeration gives the storage of one pixel
as `(N byte, ...`, each with that `N`. -/
def documentedBytesPerPixel : List (Nat × Nat) :=
  [(DSPF_ARGB1555, 2), (DSPF_RGB16, 2), (DSPF_RGB24, 3), (DSPF_RGB32, 4),
   (DSPF_ARGB, 4), (DSPF_A8, 1), (DSPF_RGB332, 1), (DSPF_ALUT44, 1),
   (DSPF_AiRGB, 4), (DSPF_ARGB2554, 2), (DSPF_ARGB4444, 2), (DSPF_RGBA4444, 2),
   (DSPF_AYUV, 4), (DSPF_ARGB1666, 3), (DSPF_ARGB6666, 3), (DSPF_RGB18, 3),
   (DSPF_RGB444, 2), (DSPF_RGB555, 2), (DSPF_BGR555, 2), (DSPF_RGBA5551, 2),
   (DSPF_ARGB8565, 3), (DSPF_AVYU, 4), (DSPF_VYU, 3), (DSPF_ABGR, 4),
   (DSPF_RGBAF88871, 4)]

/-- The formats whose comment in the enumeration gives the storage as
`(N byte/ M pixel, ...`, each with that `N` and `M`. -/
def documentedBytesPerPixels : List (Nat × Nat × Nat) :=
  [(DSPF_YUY2, 4, 2), (DSPF_UYVY, 4, 2), (DSPF_A1, 1, 8),
   (DSPF_A4, 1, 2), (DSPF_LUT2, 1, 4), (DSPF_A1_LSB, 1, 8),
   (DSPF_LUT4, 1, 2), (DSPF_LUT1, 1, 8)]

/-- The planar formats documented with quarter-size chroma planes. -/
def quarterSizeChromaFormats : List Nat := [DSPF_I420, DSPF_YV12, DSPF_NV12, DSPF_NV21]

/-- The planar formats documented with half-size chroma planes. -/
def halfSizeChromaFormats : List Nat := [DSPF_NV16, DSPF_YV16, DSPF_NV61, DSPF_Y42B]

/-- The planar formats documented with chroma planes of the size of the luma
plane (`8 bit Y plane followed by 8 bit U/V planes`). -/
def fullSizeChromaFormats : List Nat := [DSPF_Y444, DSPF_YV24]

/-- The macro `DFB_PLANE_MULTIPLY(fmt,height)` evaluated in 32-bit arithmetic: the
product is reduced modulo `2 ^ 32` before the shift.  This is the bit pattern of
the product, shifted logically; it is the value of the `int` evaluation
`DFB_PLANE_MULTIPLY_int` as long as the product stays below `2 ^ 31`. -/
def DFB_PLANE_MULTIPLY_32 (fmt height : Nat) : Nat :=
  (((planeMultiplierBits fmt + 4) * height) % 2 ^ 32) >>> 2

/-- The value a C `int` holds after an operation whose exact result is `x`: the
result reduced to 32 bits and read in two's complement. -/
def int32 (x : Int) : Int :=
  if x % 2 ^ 32 < 2 ^ 31 then x % 2 ^ 32 else x % 2 ^ 32 - 2 ^ 32

/-- The macro `DFB_PLANE_MULTIPLY(fmt,height)` as it is evaluated for an `int`
height: the multiplier field plus 4 and the height are multiplied as `int`, and
`>> 2` on the `int` product is an arithmetic shift. -/
def DFB_PLANE_MULTIPLY_int (fmt : Nat) (height : Int) : Int :=
  int32 (((planeMultiplierBits fmt : Int) + 4) * height) >>> (2 : Nat)

/-! ## Interface behaviour

The header declares the interfaces `IDirectFBSurface` and
`IDirectFBEventBuffer` and documents their methods; the implementations are not
part of the sources.  The definitions of this section model the documented
behaviour as executable state machines over explicit state.  Real time
(vertical sync, blocking, time-outs) and the stereo eyes are outside of these
models.
-/

/-- Modelled from the spec: the result codes of the methods, whose enumeration
`DFBResult` is not part of the sources.  The documentation of the interfaces and
the error taxonomy of the specification name `DFB_UNSUPPORTED`, `DFB_BUSY`,
`DFB_LOCKED`, `DFB_TIMEOUT` and `DFB_INTERRUPTED`; `DFB_BUFFEREMPTY` stands for
the failure of a fetch from an empty buffer, which the specification leaves
unnamed. -/
inductive DFBResult where
  | DFB_OK
  | DFB_UNSUPPORTED
  | DFB_BUSY
  | DFB_LOCKED
  | DFB_TIMEOUT
  | DFB_INTERRUPTED
  | DFB_BUFFEREMPTY
  deriving DecidableEq

/-! ### Event buffer (`IDirectFBEventBuffer`) -/

/-- The methods of `IDirectFBEventBuffer` with their input arguments, in
declaration order.  Events are values of an arbitrary type `ε`. -/
inductive EventBufferMethod (ε : Type) where
  | Reset
  | WaitForEvent
  | WaitForEventWithTimeout (seconds milli_seconds : Nat)
  | GetEvent
  | PeekEvent
  | HasEvent
  | PostEvent (event : ε)
  | WakeUp
  | CreateFileDescriptor
  | EnableStatistics (enable : Bool)
  | GetStatistics

/-- Modelled from the spec: the state of an event buffer, whose implementation is
not part of the sources.  `fifo` holds the pending events, oldest first;
`exported` is the state `fd-exported` of the specification; `descriptor` is the
stream of events readable from the file descriptor; `wake` is the latched
wake-up; `statistics` tells whether statistics are collected. -/
structure EventBuffer (ε : Type) where
  fifo : List ε
  exported : Bool
  descriptor : List ε
  wake : Bool
  statistics : Bool

/-- What one method call yields: the result code (`none` when the call blocks for
ever in a run without another context), the event stored through `ret_event`,
and the buffer after the call. -/
structure EventBufferReturn (ε : Type) where
  result : Option DFBResult
  ret_event : Option ε
  buffer : EventBuffer ε

/-- A newly created event buffer: active, empty. -/
def EventBuffer.create (ε : Type) : EventBuffer ε :=
  { fifo := [], exported := false, descriptor := [], wake := false, statistics := false }

/-- Modelled from the spec: the methods of `IDirectFBEventBuffer`, whose
implementation is not part of the sources.  Specification 4.4 and the method
documentation of the header: `PostEvent` puts an event into the FIFO, `GetEvent`
gets the next event and removes it, `PeekEvent` gets it but leaves it there,
`HasEvent` checks for a pending event, `Reset` clears all events; a wait returns
when an event is pending, is interrupted by a latched `WakeUp`, times out, or
blocks; `CreateFileDescriptor` flushes the buffer to the descriptor and moves
the buffer to the exported state, after which all other methods except
`PostEvent` return `DFB_UNSUPPORTED` and calling it again returns `DFB_BUSY`. -/
def EventBuffer.call {ε : Type} (b : EventBuffer ε) (m : EventBufferMethod ε) :
    EventBufferReturn ε :=
  if b.exported then
    match m with
    | .PostEvent e =>
      { result := some .DFB_OK, ret_event := none,
        buffer := { b with descriptor := b.descriptor ++ [e] } }
    | .CreateFileDescriptor => { result := some .DFB_BUSY, ret_event := none, buffer := b }
    | _ => { result := some .DFB_UNSUPPORTED, ret_event := none, buffer := b }
  else
    match m with
    | .Reset => { result := some .DFB_OK, ret_event := none, buffer := { b with fifo := [] } }
    | .WaitForEvent =>
      if !b.fifo.isEmpty then { result := some .DFB_OK, ret_event := none, buffer := b }
      else if b.wake then
        { result := some .DFB_INTERRUPTED, ret_event := none, buffer := { b with wake := false } }
      else { result := none, ret_event := none, buffer := b }
    | .WaitForEventWithTimeout _ _ =>
      if !b.fifo.isEmpty then { result := some .DFB_OK, ret_event := none, buffer := b }
      else if b.wake then
        { result := some .DFB_INTERRUPTED, ret_event := none, buffer := { b with wake := false } }
      else { result := some .DFB_TIMEOUT, ret_event := none, buffer := b }
    | .GetEvent =>
      match b.fifo with
      | e :: rest =>
        { result := some .DFB_OK, ret_event := some e, buffer := { b with fifo := rest } }
      | [] => { result := some .DFB_BUFFEREMPTY, ret_event := none, buffer := b }
    | .PeekEvent =>
      match b.fifo with
      | e :: _ => { result := some .DFB_OK, ret_event := some e, buffer := b }
      | [] => { result := some .DFB_BUFFEREMPTY, ret_event := none, buffer := b }
    | .HasEvent =>
      if !b.fifo.isEmpty then { result := some .DFB_OK, ret_event := none, buffer := b }
      else { result := some .DFB_BUFFEREMPTY, ret_event := none, buffer := b }
    | .PostEvent e =>
      { result := some .DFB_OK, ret_event := none, buffer := { b with fifo := b.fifo ++ [e] } }
    | .WakeUp => { result := some .DFB_OK, ret_event := none, buffer := { b with wake := true } }
    | .CreateFileDescriptor =>
      { result := some .DFB_OK, ret_event := none,
        buffer := { b with exported := true, descriptor := b.descriptor ++ b.fifo, fifo := [] } }
    | .EnableStatistics enable =>
      { result := some .DFB_OK, ret_event := none, buffer := { b with statistics := enable } }
    | .GetStatistics => { result := some .DFB_OK, ret_event := none, buffer := b }

/-- The returns of a sequence of calls made one after the other. -/
def EventBuffer.run {ε : Type} : EventBuffer ε → List (EventBufferMethod ε) →
    List (EventBufferReturn ε)
  | _, [] => []
  | b, m :: ms => b.call m :: EventBuffer.run (b.call m).buffer ms

/-- The buffer after a sequence of calls. -/
def EventBuffer.after {ε : Type} : EventBuffer ε → List (EventBufferMethod ε) → EventBuffer ε
  | b, [] => b
  | b, m :: ms => EventBuffer.after (b.call m).buffer ms

/-- The events handed to `PostEvent` in a sequence of calls, in call order. -/
def postedEvents {ε : Type} : List (EventBufferMethod ε) → List ε
  | [] => []
  | .PostEvent e :: ms => e :: postedEvents ms
  | _ :: ms => postedEvents ms

/-- The events returned by the `GetEvent` calls of a sequence of calls, in call
order. -/
def EventBuffer.fetched {ε : Type} : EventBuffer ε → List (EventBufferMethod ε) → List ε
  | _, [] => []
  | b, .GetEvent :: ms =>
    (b.call .GetEvent).ret_event.toList ++ EventBuffer.fetched (b.call .GetEvent).buffer ms
  | b, m :: ms => EventBuffer.fetched (b.call m).buffer ms

/-- A call that neither clears the buffer nor exports it. -/
def EventBufferMethod.keepsFifo {ε : Type} : EventBufferMethod ε → Bool
  | .Reset => false
  | .CreateFileDescriptor => false
  | _ => true

/-! ### Surface buffers (`IDirectFBSurface::Lock`, `Unlock`, `Flip`) -/

def DSLF_READ : Nat := 0x00000001
def DSLF_WRITE : Nat := 0x00000002

def DSFLIP_NONE : Nat := 0x00000000
def DSFLIP_WAIT : Nat := 0x00000001
def DSFLIP_BLIT : Nat := 0x00000002
def DSFLIP_ONSYNC : Nat := 0x00000004
def DSFLIP_PIPELINE : Nat := 0x00000008
def DSFLIP_ONCE : Nat := 0x00000010
def DSFLIP_QUEUE : Nat := 0x00000100
def DSFLIP_FLUSH : Nat := 0x00000200
def DSFLIP_SWAP : Nat := 0x00000400
def DSFLIP_UPDATE : Nat := 0x00000800
def DSFLIP_NOWAIT : Nat := 0x00001000
def DSFLIP_WAITFORSYNC : Nat := DSFLIP_WAIT ||| DSFLIP_ONSYNC

/-- The structure `DFBRegion`: a region specified by two points, both
included. -/
structure DFBRegion where
  x1 : Int
  y1 : Int
  x2 : Int
  y2 : Int
  deriving DecidableEq

/-- One outstanding lock: the execution context holding it, the allocation it is
on, and whether it is an exclusive (write) lock. -/
structure SurfaceLock where
  context : Nat
  allocation : Nat
  write : Bool
  deriving DecidableEq

/-- Modelled from the spec: the buffers of one surface (specification 3 and
4.2), whose implementation is not part of the sources.  `buffers` lists the
allocations of the surface in role order, front first, then back, then idle: one
allocation for a single-buffered surface, two for a double-buffered, three for a
triple-buffered one.  `locks` lists the outstanding locks, the latest first.
`subsurface` tells whether the surface is a sub-surface, which "holds a
non-owning reference to a parent Surface" and "shares the parent's
allocations". -/
structure Surface where
  caps : Nat
  buffers : List Nat
  locks : List SurfaceLock
  subsurface : Bool
  deriving DecidableEq

/-- Modelled from the spec: the number of allocations a surface owns, "1
(front-only), 2 (double), or 3 (triple)", chosen by its capability flags. -/
def bufferCount (caps : Nat) : Nat :=
  if caps &&& DSCAPS_TRIPLE ≠ 0 then 3 else if caps &&& DSCAPS_DOUBLE ≠ 0 then 2 else 1

/-- Modelled from the spec: a surface as created with the capability flags
`caps`, owning the allocations `first`, `first + 1`, ... and not locked.  A
created surface owns its allocations: it is not a sub-surface. -/
def Surface.create (caps first : Nat) : Surface :=
  { caps := caps, buffers := (List.range (bufferCount caps)).map (fun i => first + i),
    locks := [], subsurface := false }

/-- Modelled from the spec: the buffers as seen through a sub-surface of the
surface (specification 3: a sub-surface "shares the parent's allocations"); the
capability flag `DSCAPS_SUBSURFACE` marks it in the header, "Surface is just a
sub area of another one sharing the surface data". -/
def Surface.GetSubSurface (s : Surface) : Surface :=
  { s with caps := s.caps ||| DSCAPS_SUBSURFACE, subsurface := true }

/-- The allocation in the front role. -/
def Surface.front (s : Surface) : Nat := s.buffers.headD 0

/-- The allocation in the back role; front and back coincide when the surface
has one allocation only. -/
def Surface.back (s : Surface) : Nat := (s.buffers.drop 1).headD s.front

/-- Modelled from the spec: the buffer a lock is on, chosen inside the
implementation of `Lock`, which is not part of the sources.  The header documents
it at `IDirectFBSurface::Lock` and `DSLF_WRITE`: "if the surface is double/triple buffered and the DSLF_WRITE flag
is specified, the pointer is to the back buffer. In all other cases, the pointer
is to the front buffer." -/
def Surface.lockTarget (s : Surface) (flags : Nat) : Nat :=
  if s.caps &&& DSCAPS_FLIPPING ≠ 0 ∧ flags &&& DSLF_WRITE ≠ 0 then s.back else s.front

/-- What `Lock` yields: the result code, the allocation `ret_ptr` points into,
and the surface after the call. -/
structure LockReturn where
  result : DFBResult
  ret_ptr : Option Nat
  surface : Surface
  deriving DecidableEq

/-- Modelled from the spec: `IDirectFBSurface::Lock`, called by the execution
context `context`; its implementation is not part of the sources.
Specification 4.1: the lock "fails with `Locked` if another exclusive lock is
outstanding on the same allocation from a different execution context";
otherwise it is granted and recorded. -/
def Surface.Lock (s : Surface) (context flags : Nat) : LockReturn :=
  if s.locks.any (fun l =>
      l.allocation == s.lockTarget flags && l.write && l.context != context) then
    { result := .DFB_LOCKED, ret_ptr := none, surface := s }
  else
    { result := .DFB_OK, ret_ptr := some (s.lockTarget flags),
      surface := { s with locks :=
        { context := context, allocation := s.lockTarget flags,
          write := flags &&& DSLF_WRITE != 0 } :: s.locks } }

/-- Modelled from the spec: `IDirectFBSurface::Unlock`, called by the execution
context `context`; its implementation is not part of the sources.
Specification 4.1: it "releases the lock; must be matched 1:1 with `lock`;
unlocking an unlocked allocation is a no-op reported as success".  The latest
lock of the context is released. -/
def Surface.Unlock (s : Surface) (context : Nat) : DFBResult × Surface :=
  (.DFB_OK, { s with locks := s.locks.eraseP (fun l => l.context == context) })

/-- Modelled from the spec: whether a flip exchanges buffer roles instead of
copying, decided inside the implementation of `Flip`, which is not part of the
sources.  Specification 4.2: "No region + no `BLIT`: true swap of front/back
pointers", and "Region specified, or `BLIT` flag, or the surface is a
sub-surface: copy-based update". -/
def flipSwaps (subsurface : Bool) (region : Option DFBRegion) (flags : Nat) : Bool :=
  region.isNone && flags &&& DSFLIP_BLIT == 0 && !subsurface

/-- Modelled from the spec: the "true swap of front/back pointers" of
specification 4.2 on the allocations in role order; the header words it "just
swapping these buffers", the back and the front buffer.  The back allocation
becomes the front one and the front allocation the back one; with one
allocation, front and back coincide and nothing changes. -/
def swapFrontBack : List Nat → List Nat
  | front :: back :: idle => back :: front :: idle
  | buffers => buffers

/-- Modelled from the spec: the effect of `IDirectFBSurface::Flip` on the buffer
roles, once the flip has taken place; its implementation is not part of the
sources.  A surface with an outstanding lock is not flipped ("locked allocations
may not be concurrently flipped").  A swapping flip exchanges the front and the
back allocation; a copying flip leaves the roles as they are. -/
def Surface.Flip (s : Surface) (region : Option DFBRegion) (flags : Nat) :
    DFBResult × Surface :=
  if !s.locks.isEmpty then (.DFB_LOCKED, s)
  else if flipSwaps s.subsurface region flags then
    (.DFB_OK, { s with buffers := swapFrontBack s.buffers })
  else (.DFB_OK, s)

/-- A call of one of the three methods by an execution context. -/
inductive SurfaceCall where
  | Lock (context flags : Nat)
  | Unlock (context : Nat)
  | Flip (context : Nat) (region : Option DFBRegion) (flags : Nat)

/-- The execution context making a call. -/
def SurfaceCall.context : SurfaceCall → Nat
  | .Lock context _ => context
  | .Unlock context => context
  | .Flip context _ _ => context

/-- The surface after one call. -/
def Surface.call (s : Surface) : SurfaceCall → Surface
  | .Lock context flags => (s.Lock context flags).surface
  | .Unlock context => (s.Unlock context).2
  | .Flip _ region flags => (s.Flip region flags).2

/-- The surface after a sequence of calls. -/
def Surface.after : Surface → List SurfaceCall → Surface
  | s, [] => s
  | s, c :: cs => Surface.after (s.call c) cs

/-! ### Sub-surfaces (`IDirectFBSurface::GetSubSurface`, `GetVisibleRectangle`) -/

/-- The structure `DFBRectangle`: a rectangle specified by its top-left point and
its dimension. -/
structure DFBRectangle where
  x : Int
  y : Int
  w : Int
  h : Int
  deriving DecidableEq

/-- Intersection of two rectangles; an empty intersection has width and height
`0`. -/
def DFBRectangle.intersect (a b : DFBRectangle) : DFBRectangle :=
  if max a.x b.x < min (a.x + a.w) (b.x + b.w) ∧ max a.y b.y < min (a.y + a.h) (b.y + b.h) then
    { x := max a.x b.x, y := max a.y b.y,
      w := min (a.x + a.w) (b.x + b.w) - max a.x b.x,
      h := min (a.y + a.h) (b.y + b.h) - max a.y b.y }
  else { x := max a.x b.x, y := max a.y b.y, w := 0, h := 0 }

/-- Modelled from the spec: the area of a surface interface, whose implementation
is not part of the sources.  `(x, y)` is the place of the origin of the
interface in the allocation it draws to, `width` and `height` are its size, and
`visible` is the rectangle `GetVisibleRectangle` reports.  A sub-surface shares
the allocation of its parent (specification 3). -/
structure SurfaceArea where
  x : Int
  y : Int
  width : Int
  height : Int
  visible : DFBRectangle
  deriving DecidableEq

/-- Modelled from the spec: `IDirectFBSurface::GetSubSurface`, whose implementation
is not part of the sources.  Specification 4.2: it "returns a view whose
coordinate space is `rect` intersected with the parent's own visible rectangle
(recursive clipping for nested sub-surfaces); `rect = null` yields a view equal
to the parent's current visible rectangle".  `rect` is in the coordinates of the
parent, in which the parent itself is `{ 0, 0, width, height }`; the
intersection is the coordinate space of the view, so it gives the view its
place and its size, and it is the visible rectangle of the view (specification
8, P2). -/
def SurfaceArea.GetSubSurface (parent : SurfaceArea) (rect : Option DFBRectangle) :
    SurfaceArea :=
  match rect with
  | none =>
    { x := parent.x, y := parent.y, width := parent.width, height := parent.height,
      visible := { x := 0, y := 0, w := parent.width, h := parent.height } }
  | some r =>
    { x := parent.x + (r.intersect ⟨0, 0, parent.width, parent.height⟩).x,
      y := parent.y + (r.intersect ⟨0, 0, parent.width, parent.height⟩).y,
      width := (r.intersect ⟨0, 0, parent.width, parent.height⟩).w,
      height := (r.intersect ⟨0, 0, parent.width, parent.height⟩).h,
      visible := r.intersect ⟨0, 0, parent.width, parent.height⟩ }

/-- Masking with a field mask of width `k` at position `s` keeps the digits
`s .. s+k-1` of the value. -/
theorem and_fieldMask (v k s : Nat) :
    v &&& ((2 ^ k - 1) <<< s) = (v / 2 ^ s % 2 ^ k) * 2 ^ s := by
  apply Nat.eq_of_testBit_eq
  intro i
  rw [← Nat.shiftLeft_eq, ← Nat.shiftRight_eq_div_pow]
  simp only [Nat.testBit_and, Nat.testBit_shiftLeft, Nat.testBit_two_pow_sub_one,
    Nat.testBit_mod_two_pow, Nat.testBit_shiftRight]
  by_cases h : s ≤ i
  · have e : s + (i - s) = i := by omega
    simp [h, e, Bool.and_comm]
  · simp [h]

/-- Extracting a field of width `k` at position `s`. -/
theorem extract_field (v k s : Nat) :
    (v &&& ((2 ^ k - 1) <<< s)) >>> s = v / 2 ^ s % 2 ^ k := by
  rw [and_fieldMask, Nat.shiftRight_eq_div_pow]
  exact Nat.mul_div_cancel _ (Nat.two_pow_pos s)

/-- Or-ing a shifted field onto a value that lies entirely below the field
adds it. -/
theorem or_shiftLeft_eq_add (s : Nat) {acc : Nat} (h : acc < 2 ^ s) (x : Nat) :
    acc ||| (x <<< s) = acc + x * 2 ^ s := by
  rw [Nat.or_comm, Nat.shiftLeft_eq, Nat.mul_comm x, ← Nat.mul_add_lt_is_or h, Nat.add_comm]

/-- Truth value of a macro argument, as `0` or `1`: the C expression
`(x) ? 1 : 0`. -/
theorem truth_le_one (x : Nat) : (if x ≠ 0 then 1 else 0 : Nat) ≤ 1 := by
  split <;> omega

/-- The packed value is the sum of its eleven fields, each scaled to its
position: no two operands of the `|` chain overlap. -/
theorem DFB_SURFACE_PIXELFORMAT_eq_sum (index color_bits alpha_bits has_alpha row_bits
    row_bytes align mul_f mul_d has_lut inv_alpha : Nat) :
    DFB_SURFACE_PIXELFORMAT index color_bits alpha_bits has_alpha row_bits row_bytes
        align mul_f mul_d has_lut inv_alpha
      = index % 128 + color_bits % 32 * 128 + alpha_bits % 16 * 4096
        + (if has_alpha ≠ 0 then 1 else 0) * 65536 + row_bits % 8 * 131072
        + row_bytes % 8 * 1048576 + align % 8 * 8388608 + mul_f % 4 * 67108864
        + mul_d % 4 * 268435456 + (if has_lut ≠ 0 then 1 else 0) * 1073741824
        + (if inv_alpha ≠ 0 then 1 else 0) * 2147483648 := by
  have e1 : index &&& 0x7F = index % 128 := Nat.and_pow_two_sub_one_eq_mod index 7
  have e2 : color_bits &&& 0x1F = color_bits % 32 := Nat.and_pow_two_sub_one_eq_mod _ 5
  have e3 : alpha_bits &&& 0x0F = alpha_bits % 16 := Nat.and_pow_two_sub_one_eq_mod _ 4
  have e4 : row_bits &&& 0x07 = row_bits % 8 := Nat.and_pow_two_sub_one_eq_mod _ 3
  have e5 : row_bytes &&& 0x07 = row_bytes % 8 := Nat.and_pow_two_sub_one_eq_mod _ 3
  have e6 : align &&& 0x07 = align % 8 := Nat.and_pow_two_sub_one_eq_mod _ 3
  have e7 : mul_f &&& 0x03 = mul_f % 4 := Nat.and_pow_two_sub_one_eq_mod _ 2
  have e8 : mul_d &&& 0x03 = mul_d % 4 := Nat.and_pow_two_sub_one_eq_mod _ 2
  have ha := truth_le_one has_alpha
  have hl := truth_le_one has_lut
  have hi := truth_le_one inv_alpha
  unfold DFB_SURFACE_PIXELFORMAT
  rw [e1, e2, e3, e4, e5, e6, e7, e8]
  generalize (if has_alpha ≠ 0 then 1 else 0 : Nat) = a at ha ⊢
  generalize (if has_lut ≠ 0 then 1 else 0 : Nat) = l at hl ⊢
  generalize (if inv_alpha ≠ 0 then 1 else 0 : Nat) = n at hi ⊢
  rw [or_shiftLeft_eq_add 7 (by omega), or_shiftLeft_eq_add 12 (by omega),
    or_shiftLeft_eq_add 16 (by omega), or_shiftLeft_eq_add 17 (by omega),
    or_shiftLeft_eq_add 20 (by omega), or_shiftLeft_eq_add 23 (by omega),
    or_shiftLeft_eq_add 26 (by omega), or_shiftLeft_eq_add 28 (by omega),
    or_shiftLeft_eq_add 30 (by omega), or_shiftLeft_eq_add 31 (by omega)]
  omega

/-- Every packed value fits in 32 bits. -/
theorem DFB_SURFACE_PIXELFORMAT_lt (index color_bits alpha_bits has_alpha row_bits
    row_bytes align mul_f mul_d has_lut inv_alpha : Nat) :
    DFB_SURFACE_PIXELFORMAT index color_bits alpha_bits has_alpha row_bits row_bytes
        align mul_f mul_d has_lut inv_alpha < 2 ^ 32 := by
  rw [DFB_SURFACE_PIXELFORMAT_eq_sum]
  have ha := truth_le_one has_alpha
  have hl := truth_le_one has_lut
  have hi := truth_le_one inv_alpha
  omega

/-- A field value below `2 ^ k`, shifted to position `s`, lies inside the field
mask of width `k` at position `s`. -/
theorem shiftLeft_and_fieldMask (k s : Nat) {y : Nat} (h : y < 2 ^ k) :
    (y <<< s) &&& ((2 ^ k - 1) <<< s) = y <<< s := by
  rw [and_fieldMask, Nat.shiftLeft_eq, Nat.mul_div_cancel _ (Nat.two_pow_pos s),
    Nat.mod_eq_of_lt h]

/-- Two values lying inside disjoint masks are disjoint. -/
theorem and_eq_zero_of_masks {a b ma mb : Nat} (ha : a &&& ma = a) (hb : b &&& mb = b)
    (hm : ma &&& mb = 0) : a &&& b = 0 := by
  apply Nat.eq_of_testBit_eq
  intro i
  have h1 := congrArg (fun x => Nat.testBit x i) ha
  have h2 := congrArg (fun x => Nat.testBit x i) hb
  have h3 := congrArg (fun x => Nat.testBit x i) hm
  simp only [Nat.testBit_and, Nat.zero_testBit] at h1 h2 h3 ⊢
  revert h1 h2 h3
  cases a.testBit i <;> cases b.testBit i <;> cases ma.testBit i <;> cases mb.testBit i <;> simp

/-- Each value of a list matched against a list of masks has its mask in that
list. -/
theorem exists_mask_of_mem {ts ms : List Nat}
    (h : List.Forall₂ (fun t m => t &&& m = t) ts ms) {u : Nat} (hu : u ∈ ts) :
    ∃ mu ∈ ms, u &&& mu = u := by
  induction h with
  | nil => cases hu
  | cons hab hrest ih =>
    rename_i t m ts1 ms1
    rcases List.mem_cons.1 hu with rfl | hu1
    · exact ⟨m, List.mem_cons_self _ _, hab⟩
    · obtain ⟨mu, hmu, e⟩ := ih hu1
      exact ⟨mu, List.mem_cons_of_mem _ hmu, e⟩

/-- Values lying inside pairwise disjoint masks are pairwise disjoint. -/
theorem pairwise_disjoint_of_masks {ts ms : List Nat}
    (h : List.Forall₂ (fun t m => t &&& m = t) ts ms)
    (hm : ms.Pairwise (fun a b => a &&& b = 0)) :
    ts.Pairwise (fun a b => a &&& b = 0) := by
  induction h with
  | nil => exact List.Pairwise.nil
  | cons hab hrest ih =>
    rw [List.pairwise_cons] at hm ⊢
    refine ⟨?_, ih hm.2⟩
    intro u hu
    obtain ⟨mu, hmu, hum⟩ := exists_mask_of_mem hrest hu
    exact and_eq_zero_of_masks hab hum (hm.1 mu hmu)

/-- Each operand of the `|` chain lies inside the mask of its field. -/
theorem pixelformatTerms_within_masks (index color_bits alpha_bits has_alpha row_bits
    row_bytes align mul_f mul_d has_lut inv_alpha : Nat) :
    List.Forall₂ (fun t m => t &&& m = t)
      (pixelformatTerms index color_bits alpha_bits has_alpha row_bits row_bytes align
        mul_f mul_d has_lut inv_alpha) pixelformatMasks := by
  have e1 : index &&& 0x7F = index % 2 ^ 7 := Nat.and_pow_two_sub_one_eq_mod index 7
  have e2 : color_bits &&& 0x1F = color_bits % 2 ^ 5 := Nat.and_pow_two_sub_one_eq_mod _ 5
  have e3 : alpha_bits &&& 0x0F = alpha_bits % 2 ^ 4 := Nat.and_pow_two_sub_one_eq_mod _ 4
  have e4 : row_bits &&& 0x07 = row_bits % 2 ^ 3 := Nat.and_pow_two_sub_one_eq_mod _ 3
  have e5 : row_bytes &&& 0x07 = row_bytes % 2 ^ 3 := Nat.and_pow_two_sub_one_eq_mod _ 3
  have e6 : align &&& 0x07 = align % 2 ^ 3 := Nat.and_pow_two_sub_one_eq_mod _ 3
  have e7 : mul_f &&& 0x03 = mul_f % 2 ^ 2 := Nat.and_pow_two_sub_one_eq_mod _ 2
  have e8 : mul_d &&& 0x03 = mul_d % 2 ^ 2 := Nat.and_pow_two_sub_one_eq_mod _ 2
  have ha : (if has_alpha ≠ 0 then 1 else 0 : Nat) < 2 ^ 1 := by split <;> omega
  have hl : (if has_lut ≠ 0 then 1 else 0 : Nat) < 2 ^ 1 := by split <;> omega
  have hi : (if inv_alpha ≠ 0 then 1 else 0 : Nat) < 2 ^ 1 := by split <;> omega
  have two_pos : ∀ k : Nat, 0 < 2 ^ k := fun k => Nat.two_pow_pos k
  unfold pixelformatTerms pixelformatMasks
  rw [e1, e2, e3, e4, e5, e6, e7, e8]
  refine .cons ?_ (.cons ?_ (.cons ?_ (.cons ?_ (.cons ?_ (.cons ?_ (.cons ?_
    (.cons ?_ (.cons ?_ (.cons ?_ (.cons ?_ .nil))))))))))
  · exact shiftLeft_and_fieldMask 7 0 (Nat.mod_lt _ (two_pos 7))
  · exact shiftLeft_and_fieldMask 5 7 (Nat.mod_lt _ (two_pos 5))
  · exact shiftLeft_and_fieldMask 4 12 (Nat.mod_lt _ (two_pos 4))
  · exact shiftLeft_and_fieldMask 1 16 ha
  · exact shiftLeft_and_fieldMask 3 17 (Nat.mod_lt _ (two_pos 3))
  · exact shiftLeft_and_fieldMask 3 20 (Nat.mod_lt _ (two_pos 3))
  · exact shiftLeft_and_fieldMask 3 23 (Nat.mod_lt _ (two_pos 3))
  · exact shiftLeft_and_fieldMask 2 26 (Nat.mod_lt _ (two_pos 2))
  · exact shiftLeft_and_fieldMask 2 28 (Nat.mod_lt _ (two_pos 2))
  · exact shiftLeft_and_fieldMask 1 30 hl
  · exact shiftLeft_and_fieldMask 1 31 hi

/-- The sum of the operands of the `|` chain is the packed value. -/
theorem pixelformatTerms_sum (index color_bits alpha_bits has_alpha row_bits
    row_bytes align mul_f mul_d has_lut inv_alpha : Nat) :
    (pixelformatTerms index color_bits alpha_bits has_alpha row_bits row_bytes align
        mul_f mul_d has_lut inv_alpha).sum
      = DFB_SURFACE_PIXELFORMAT index color_bits alpha_bits has_alpha row_bits row_bytes
          align mul_f mul_d has_lut inv_alpha := by
  have e1 : index &&& 0x7F = index % 128 := Nat.and_pow_two_sub_one_eq_mod index 7
  have e2 : color_bits &&& 0x1F = color_bits % 32 := Nat.and_pow_two_sub_one_eq_mod _ 5
  have e3 : alpha_bits &&& 0x0F = alpha_bits % 16 := Nat.and_pow_two_sub_one_eq_mod _ 4
  have e4 : row_bits &&& 0x07 = row_bits % 8 := Nat.and_pow_two_sub_one_eq_mod _ 3
  have e5 : row_bytes &&& 0x07 = row_bytes % 8 := Nat.and_pow_two_sub_one_eq_mod _ 3
  have e6 : align &&& 0x07 = align % 8 := Nat.and_pow_two_sub_one_eq_mod _ 3
  have e7 : mul_f &&& 0x03 = mul_f % 4 := Nat.and_pow_two_sub_one_eq_mod _ 2
  have e8 : mul_d &&& 0x03 = mul_d % 4 := Nat.and_pow_two_sub_one_eq_mod _ 2
  rw [DFB_SURFACE_PIXELFORMAT_eq_sum]
  unfold pixelformatTerms
  simp only [e1, e2, e3, e4, e5, e6, e7, e8, Nat.shiftLeft_eq, List.sum_cons, List.sum_nil]
  omega

/-! ## Extraction macros as digit arithmetic -/

theorem DFB_PIXELFORMAT_INDEX_eq (fmt : Nat) : DFB_PIXELFORMAT_INDEX fmt = fmt % 128 :=
  Nat.and_pow_two_sub_one_eq_mod fmt 7

theorem DFB_COLOR_BITS_PER_PIXEL_eq (fmt : Nat) :
    DFB_COLOR_BITS_PER_PIXEL fmt = fmt / 128 % 32 :=
  extract_field fmt 5 7

theorem DFB_ALPHA_BITS_PER_PIXEL_eq (fmt : Nat) :
    DFB_ALPHA_BITS_PER_PIXEL fmt = fmt / 4096 % 16 :=
  extract_field fmt 4 12

theorem DFB_BITS_PER_PIXEL_eq (fmt : Nat) : DFB_BITS_PER_PIXEL fmt = fmt / 131072 % 64 :=
  extract_field fmt 6 17

theorem DFB_BYTES_PER_PIXEL_eq (fmt : Nat) : DFB_BYTES_PER_PIXEL fmt = fmt / 1048576 % 8 :=
  extract_field fmt 3 20

theorem DFB_PIXELFORMAT_ALIGNMENT_eq (fmt : Nat) :
    DFB_PIXELFORMAT_ALIGNMENT fmt = fmt / 8388608 % 8 :=
  extract_field fmt 3 23

theorem planeMultiplierBits_eq (fmt : Nat) : planeMultiplierBits fmt = fmt / 67108864 % 16 :=
  extract_field fmt 4 26

/-- A test `(fmt & mask) != 0` against a field mask holds exactly when the field
is not zero. -/
theorem and_fieldMask_bne_zero (v k s : Nat) :
    ((v &&& ((2 ^ k - 1) <<< s)) != 0) = decide (v / 2 ^ s % 2 ^ k ≠ 0) := by
  rw [and_fieldMask]
  have hp := Nat.two_pow_pos s
  by_cases h : v / 2 ^ s % 2 ^ k = 0
  · simp [h]
  · have : v / 2 ^ s % 2 ^ k * 2 ^ s ≠ 0 := Nat.mul_ne_zero h (by omega)
    simp [h, this]

theorem DFB_PIXELFORMAT_HAS_ALPHA_eq (fmt : Nat) :
    DFB_PIXELFORMAT_HAS_ALPHA fmt = decide (fmt / 65536 % 2 ≠ 0) :=
  and_fieldMask_bne_zero fmt 1 16

theorem DFB_PIXELFORMAT_IS_INDEXED_eq (fmt : Nat) :
    DFB_PIXELFORMAT_IS_INDEXED fmt = decide (fmt / 1073741824 % 2 ≠ 0) :=
  and_fieldMask_bne_zero fmt 1 30

theorem DFB_PIXELFORMAT_INV_ALPHA_eq (fmt : Nat) :
    DFB_PIXELFORMAT_INV_ALPHA fmt = decide (fmt / 2147483648 % 2 ≠ 0) :=
  and_fieldMask_bne_zero fmt 1 31

theorem DFB_PLANAR_PIXELFORMAT_eq (fmt : Nat) :
    DFB_PLANAR_PIXELFORMAT fmt = decide (fmt / 67108864 % 16 ≠ 0) :=
  and_fieldMask_bne_zero fmt 4 26

/-- Passing a C truth value back as a macro argument: `(b) ? 1 : 0` of a truth
value held as `0` or `1`. -/
theorem truth_toNat (b : Bool) : (if b.toNat ≠ 0 then 1 else 0 : Nat) = b.toNat := by
  cases b <;> rfl

/-- A one-bit field read as a truth value and passed back as `0` or `1` is the
bit. -/
theorem toNat_decide_mod_two (x : Nat) : (decide (x % 2 ≠ 0)).toNat = x % 2 := by
  rcases Nat.mod_two_eq_zero_or_one x with c | c <;> rw [c] <;> rfl

/-- The round trip through the extraction macros is the identity on every 32-bit
value, defined format or not: the eleven fields leave no bit unread. -/
theorem reencode_eq_self (fmt : Nat) (h : fmt < 2 ^ 32) : reencode fmt = fmt := by
  have e1 : DFB_BITS_PER_PIXEL fmt &&& 7 = DFB_BITS_PER_PIXEL fmt % 8 :=
    Nat.and_pow_two_sub_one_eq_mod (DFB_BITS_PER_PIXEL fmt) 3
  have e2 : planeMultiplierBits fmt &&& 3 = planeMultiplierBits fmt % 4 :=
    Nat.and_pow_two_sub_one_eq_mod (planeMultiplierBits fmt) 2
  have e3 : planeMultiplierBits fmt >>> 2 = planeMultiplierBits fmt / 4 :=
    Nat.shiftRight_eq_div_pow (planeMultiplierBits fmt) 2
  unfold reencode
  rw [DFB_SURFACE_PIXELFORMAT_eq_sum, truth_toNat, truth_toNat, truth_toNat, e1, e2, e3,
    DFB_PIXELFORMAT_INDEX_eq, DFB_COLOR_BITS_PER_PIXEL_eq, DFB_ALPHA_BITS_PER_PIXEL_eq,
    DFB_PIXELFORMAT_HAS_ALPHA_eq, DFB_BYTES_PER_PIXEL_eq, DFB_BITS_PER_PIXEL_eq,
    DFB_PIXELFORMAT_ALIGNMENT_eq, DFB_PIXELFORMAT_IS_INDEXED_eq,
    DFB_PIXELFORMAT_INV_ALPHA_eq, planeMultiplierBits_eq]
  rw [toNat_decide_mod_two, toNat_decide_mod_two, toNat_decide_mod_two]
  have d1 : fmt / 4096 = fmt / 128 / 32 := (Nat.div_div_eq_div_mul fmt 128 32).symm
  have d2 : fmt / 65536 = fmt / 4096 / 16 := (Nat.div_div_eq_div_mul fmt 4096 16).symm
  have d3 : fmt / 131072 = fmt / 65536 / 2 := (Nat.div_div_eq_div_mul fmt 65536 2).symm
  have d4 : fmt / 1048576 = fmt / 131072 / 8 := (Nat.div_div_eq_div_mul fmt 131072 8).symm
  have d5 : fmt / 8388608 = fmt / 1048576 / 8 := (Nat.div_div_eq_div_mul fmt 1048576 8).symm
  have d6 : fmt / 67108864 = fmt / 8388608 / 8 := (Nat.div_div_eq_div_mul fmt 8388608 8).symm
  have d7 : fmt / 1073741824 = fmt / 67108864 / 16 :=
    (Nat.div_div_eq_div_mul fmt 67108864 16).symm
  have d8 : fmt / 2147483648 = fmt / 1073741824 / 2 :=
    (Nat.div_div_eq_div_mul fmt 1073741824 2).symm
  have d9 : fmt / 2147483648 / 2 = 0 := by
    rw [Nat.div_div_eq_div_mul]
    exact Nat.div_eq_of_lt h
  generalize fmt / 2147483648 = q8 at d8 d9 ⊢
  generalize fmt / 1073741824 = q7 at d7 d8 ⊢
  generalize fmt / 67108864 = q6 at d6 d7 ⊢
  generalize fmt / 8388608 = q5 at d5 d6 ⊢
  generalize fmt / 1048576 = q4 at d4 d5 ⊢
  generalize fmt / 131072 = q3 at d3 d4 ⊢
  generalize fmt / 65536 = q2 at d2 d3 ⊢
  generalize fmt / 4096 = q1 at d1 d2 ⊢
  omega

/-! ## Colour classes -/

/-- The formats accepted by `DFB_COLOR_IS_RGB`, as a list. -/
theorem DFB_COLOR_IS_RGB_iff_mem (fmt : Nat) :
    DFB_COLOR_IS_RGB fmt = true ↔
      fmt ∈ [DSPF_ARGB1555, DSPF_RGB16, DSPF_RGB24, DSPF_RGB32, DSPF_ARGB, DSPF_RGB332,
        DSPF_AiRGB, DSPF_ARGB2554, DSPF_ARGB4444, DSPF_RGBA4444, DSPF_ARGB1666,
        DSPF_ARGB6666, DSPF_RGB18, DSPF_RGB444, DSPF_RGB555, DSPF_BGR555, DSPF_ARGB8565,
        DSPF_ABGR, DSPF_RGBAF88871] := by
  simp only [DFB_COLOR_IS_RGB, Bool.or_eq_true, beq_iff_eq, List.mem_cons,
    List.not_mem_nil, or_false, or_assoc]

/-- No format is in both colour classes: the two lists of constants compared
against by `DFB_COLOR_IS_RGB` and `DFB_COLOR_IS_YUV` share no value. -/
theorem not_yuv_of_rgb {fmt : Nat} (h : DFB_COLOR_IS_RGB fmt = true) :
    DFB_COLOR_IS_YUV fmt = false := by
  have hall : ∀ f ∈ [DSPF_ARGB1555, DSPF_RGB16, DSPF_RGB24, DSPF_RGB32, DSPF_ARGB,
      DSPF_RGB332, DSPF_AiRGB, DSPF_ARGB2554, DSPF_ARGB4444, DSPF_RGBA4444, DSPF_ARGB1666,
      DSPF_ARGB6666, DSPF_RGB18, DSPF_RGB444, DSPF_RGB555, DSPF_BGR555, DSPF_ARGB8565,
      DSPF_ABGR, DSPF_RGBAF88871], DFB_COLOR_IS_YUV f = false := by decide
  exact hall fmt ((DFB_COLOR_IS_RGB_iff_mem fmt).1 h)

/-! ## Pixel format registry -/

/-- Claim C1.  For each of the 45 defined pixel format constants, reading the
eleven packed fields back with the extraction macros and passing them to
`DFB_SURFACE_PIXELFORMAT` again reproduces the constant. -/
theorem pixelformat_registry_roundtrip :
    ∀ fmt ∈ definedPixelFormats, reencode fmt = fmt := by
  decide

/-- Instance of C1 at `DSPF_ARGB`. -/
theorem pixelformat_registry_roundtrip_witness :
    DSPF_ARGB ∈ definedPixelFormats ∧ reencode DSPF_ARGB = DSPF_ARGB :=
  ⟨by decide, pixelformat_registry_roundtrip DSPF_ARGB (by decide)⟩

/-- Claim C2.  For all argument values the eleven operands of
`DFB_SURFACE_PIXELFORMAT` lie inside the eleven field masks, the masks are
pairwise disjoint and together are exactly `0xFFFFFFFF`, any two operands have
bitwise AND `0`, and the OR of the operands (the macro value) equals their
sum. -/
theorem pixelformat_encoding_bits_disjoint (index color_bits alpha_bits has_alpha
    row_bits row_bytes align mul_f mul_d has_lut inv_alpha : Nat) :
    List.Forall₂ (fun t m => t &&& m = t)
      (pixelformatTerms index color_bits alpha_bits has_alpha row_bits row_bytes align
        mul_f mul_d has_lut inv_alpha) pixelformatMasks
    ∧ pixelformatMasks.Pairwise (fun a b => a &&& b = 0)
    ∧ orAll pixelformatMasks = 0xFFFFFFFF
    ∧ pixelformatMasks.sum = 0xFFFFFFFF
    ∧ (pixelformatTerms index color_bits alpha_bits has_alpha row_bits row_bytes align
        mul_f mul_d has_lut inv_alpha).Pairwise (fun a b => a &&& b = 0)
    ∧ orAll (pixelformatTerms index color_bits alpha_bits has_alpha row_bits row_bytes
        align mul_f mul_d has_lut inv_alpha)
      = DFB_SURFACE_PIXELFORMAT index color_bits alpha_bits has_alpha row_bits row_bytes
          align mul_f mul_d has_lut inv_alpha
    ∧ orAll (pixelformatTerms index color_bits alpha_bits has_alpha row_bits row_bytes
        align mul_f mul_d has_lut inv_alpha)
      = (pixelformatTerms index color_bits alpha_bits has_alpha row_bits row_bytes align
          mul_f mul_d has_lut inv_alpha).sum := by
  have hw := pixelformatTerms_within_masks index color_bits alpha_bits has_alpha row_bits
    row_bytes align mul_f mul_d has_lut inv_alpha
  have hm : pixelformatMasks.Pairwise (fun a b => a &&& b = 0) := by decide
  have hor : orAll (pixelformatTerms index color_bits alpha_bits has_alpha row_bits
      row_bytes align mul_f mul_d has_lut inv_alpha)
      = DFB_SURFACE_PIXELFORMAT index color_bits alpha_bits has_alpha row_bits row_bytes
          align mul_f mul_d has_lut inv_alpha := by
    simp only [orAll, pixelformatTerms, DFB_SURFACE_PIXELFORMAT, List.foldl_cons,
      List.foldl_nil, Nat.zero_or]
  refine ⟨hw, hm, by decide, by decide, pairwise_disjoint_of_masks hw hm, hor, ?_⟩
  rw [hor, pixelformatTerms_sum]

/-- Claim C3.  For every in-range field tuple, each extraction macro applied to
the packed value returns the field it was packed from; the three truth-valued
arguments are read as C reads them (non-zero is true), which covers `0` and `1`. -/
theorem pixelformat_decode_encode (index color_bits alpha_bits has_alpha row_bits
    row_bytes align mul_f mul_d has_lut inv_alpha : Nat)
    (h_index : index < 128) (h_color : color_bits < 32) (h_alpha : alpha_bits < 16)
    (h_row_bits : row_bits < 8) (h_row_bytes : row_bytes < 8) (h_align : align < 8)
    (h_mul_f : mul_f < 4) (h_mul_d : mul_d < 4) :
    DFB_PIXELFORMAT_INDEX (DFB_SURFACE_PIXELFORMAT index color_bits alpha_bits has_alpha
        row_bits row_bytes align mul_f mul_d has_lut inv_alpha) = index
    ∧ DFB_COLOR_BITS_PER_PIXEL (DFB_SURFACE_PIXELFORMAT index color_bits alpha_bits
        has_alpha row_bits row_bytes align mul_f mul_d has_lut inv_alpha) = color_bits
    ∧ DFB_ALPHA_BITS_PER_PIXEL (DFB_SURFACE_PIXELFORMAT index color_bits alpha_bits
        has_alpha row_bits row_bytes align mul_f mul_d has_lut inv_alpha) = alpha_bits
    ∧ DFB_PIXELFORMAT_HAS_ALPHA (DFB_SURFACE_PIXELFORMAT index color_bits alpha_bits
        has_alpha row_bits row_bytes align mul_f mul_d has_lut inv_alpha)
        = decide (has_alpha ≠ 0)
    ∧ DFB_BYTES_PER_PIXEL (DFB_SURFACE_PIXELFORMAT index color_bits alpha_bits
        has_alpha row_bits row_bytes align mul_f mul_d has_lut inv_alpha) = row_bytes
    ∧ DFB_BITS_PER_PIXEL (DFB_SURFACE_PIXELFORMAT index color_bits alpha_bits
        has_alpha row_bits row_bytes align mul_f mul_d has_lut inv_alpha)
        = 8 * row_bytes + row_bits
    ∧ DFB_PIXELFORMAT_ALIGNMENT (DFB_SURFACE_PIXELFORMAT index color_bits alpha_bits
        has_alpha row_bits row_bytes align mul_f mul_d has_lut inv_alpha) = align
    ∧ DFB_PIXELFORMAT_IS_INDEXED (DFB_SURFACE_PIXELFORMAT index color_bits alpha_bits
        has_alpha row_bits row_bytes align mul_f mul_d has_lut inv_alpha)
        = decide (has_lut ≠ 0)
    ∧ DFB_PIXELFORMAT_INV_ALPHA (DFB_SURFACE_PIXELFORMAT index color_bits alpha_bits
        has_alpha row_bits row_bytes align mul_f mul_d has_lut inv_alpha)
        = decide (inv_alpha ≠ 0)
    ∧ (DFB_PLANAR_PIXELFORMAT (DFB_SURFACE_PIXELFORMAT index color_bits alpha_bits
        has_alpha row_bits row_bytes align mul_f mul_d has_lut inv_alpha) = true
        ↔ (mul_f ≠ 0 ∨ mul_d ≠ 0)) := by
  rw [DFB_PIXELFORMAT_INDEX_eq, DFB_COLOR_BITS_PER_PIXEL_eq, DFB_ALPHA_BITS_PER_PIXEL_eq,
    DFB_PIXELFORMAT_HAS_ALPHA_eq, DFB_BYTES_PER_PIXEL_eq, DFB_BITS_PER_PIXEL_eq,
    DFB_PIXELFORMAT_ALIGNMENT_eq, DFB_PIXELFORMAT_IS_INDEXED_eq,
    DFB_PIXELFORMAT_INV_ALPHA_eq, DFB_PLANAR_PIXELFORMAT_eq, DFB_SURFACE_PIXELFORMAT_eq_sum]
  have ha := truth_le_one has_alpha
  have hl := truth_le_one has_lut
  have hi := truth_le_one inv_alpha
  have ha0 : (if has_alpha ≠ 0 then 1 else 0 : Nat) ≠ 0 ↔ has_alpha ≠ 0 := by
    split <;> simp_all
  have hl0 : (if has_lut ≠ 0 then 1 else 0 : Nat) ≠ 0 ↔ has_lut ≠ 0 := by
    split <;> simp_all
  have hi0 : (if inv_alpha ≠ 0 then 1 else 0 : Nat) ≠ 0 ↔ inv_alpha ≠ 0 := by
    split <;> simp_all
  generalize (if has_alpha ≠ 0 then 1 else 0 : Nat) = a at ha ha0 ⊢
  generalize (if has_lut ≠ 0 then 1 else 0 : Nat) = l at hl hl0 ⊢
  generalize (if inv_alpha ≠ 0 then 1 else 0 : Nat) = n at hi hi0 ⊢
  simp only [decide_eq_decide, decide_eq_true_eq]
  refine ⟨by omega, by omega, by omega, ?_, by omega, by omega, by omega, ?_, ?_, by omega⟩
  · rw [← ha0]; omega
  · rw [← hl0]; omega
  · rw [← hi0]; omega

/-- Instance of C3 at the arguments of `DSPF_LUT2` (index 26, 2 colour bits, row
of 2 bits, alignment 3, lookup table). -/
theorem pixelformat_decode_encode_witness :
    (26 < 128 ∧ 2 < 32 ∧ 0 < 16 ∧ 2 < 8 ∧ 0 < 8 ∧ 3 < 8 ∧ 0 < 4 ∧ 0 < 4)
    ∧ DFB_PIXELFORMAT_INDEX DSPF_LUT2 = 26
    ∧ DFB_COLOR_BITS_PER_PIXEL DSPF_LUT2 = 2
    ∧ DFB_ALPHA_BITS_PER_PIXEL DSPF_LUT2 = 0
    ∧ DFB_PIXELFORMAT_HAS_ALPHA DSPF_LUT2 = decide (1 ≠ 0)
    ∧ DFB_BYTES_PER_PIXEL DSPF_LUT2 = 0
    ∧ DFB_BITS_PER_PIXEL DSPF_LUT2 = 8 * 0 + 2
    ∧ DFB_PIXELFORMAT_ALIGNMENT DSPF_LUT2 = 3
    ∧ DFB_PIXELFORMAT_IS_INDEXED DSPF_LUT2 = decide (1 ≠ 0)
    ∧ DFB_PIXELFORMAT_INV_ALPHA DSPF_LUT2 = decide (0 ≠ 0)
    ∧ (DFB_PLANAR_PIXELFORMAT DSPF_LUT2 = true ↔ (0 ≠ 0 ∨ 0 ≠ 0)) :=
  ⟨by decide,
   pixelformat_decode_encode 26 2 0 1 2 0 3 0 0 1 0 (by decide) (by decide) (by decide)
    (by decide) (by decide) (by decide) (by decide) (by decide)⟩

/-- Claim C4.  `DFB_NUM_PIXELFORMATS` is 45, the enumeration defines that many
formats besides `DSPF_UNKNOWN`, and their indices, in declaration order, are
`0, 1, ..., DFB_NUM_PIXELFORMATS - 1`: pairwise distinct, every one below
`DFB_NUM_PIXELFORMATS`, and every number below it the index of a format. -/
theorem pixelformat_indices_enumerate :
    DFB_NUM_PIXELFORMATS = 45
    ∧ definedPixelFormats.length = DFB_NUM_PIXELFORMATS
    ∧ DSPF_UNKNOWN ∉ definedPixelFormats
    ∧ definedPixelFormats.map DFB_PIXELFORMAT_INDEX = List.range DFB_NUM_PIXELFORMATS
    ∧ (definedPixelFormats.map DFB_PIXELFORMAT_INDEX).Nodup
    ∧ definedPixelFormats.Nodup
    ∧ ∀ i : Nat, i < DFB_NUM_PIXELFORMATS ↔
        ∃ fmt ∈ definedPixelFormats, DFB_PIXELFORMAT_INDEX fmt = i := by
  have hmap : definedPixelFormats.map DFB_PIXELFORMAT_INDEX
      = List.range DFB_NUM_PIXELFORMATS := by decide
  refine ⟨rfl, rfl, by decide, hmap, ?_, ?_, ?_⟩
  · rw [hmap]; exact List.nodup_range _
  · exact List.Nodup.of_map DFB_PIXELFORMAT_INDEX (hmap ▸ List.nodup_range _)
  · intro i
    rw [← List.mem_range, ← hmap, List.mem_map]

/-! ## Colour spaces -/

/-- Claim C5.  For every format value, `DFB_COLORSPACE_DEFAULT` is `DSCS_RGB`
when `DFB_COLOR_IS_RGB` holds, `DSCS_BT601` when `DFB_COLOR_IS_YUV` holds and
`DSCS_UNKNOWN` when neither holds; the two classes are disjoint, so the YUV
case is never shadowed by the RGB test that the macro makes first. -/
theorem colorspace_default_by_class (fmt : Nat) :
    (DFB_COLOR_IS_RGB fmt = true → DFB_COLORSPACE_DEFAULT fmt = DSCS_RGB)
    ∧ (DFB_COLOR_IS_YUV fmt = true → DFB_COLORSPACE_DEFAULT fmt = DSCS_BT601)
    ∧ (DFB_COLOR_IS_RGB fmt = false → DFB_COLOR_IS_YUV fmt = false →
        DFB_COLORSPACE_DEFAULT fmt = DSCS_UNKNOWN)
    ∧ ¬ (DFB_COLOR_IS_RGB fmt = true ∧ DFB_COLOR_IS_YUV fmt = true) := by
  refine ⟨?_, ?_, ?_, ?_⟩
  · intro h
    simp [DFB_COLORSPACE_DEFAULT, h]
  · intro h
    have hr : DFB_COLOR_IS_RGB fmt = false := by
      cases hc : DFB_COLOR_IS_RGB fmt
      · rfl
      · rw [not_yuv_of_rgb hc] at h; cases h
    simp [DFB_COLORSPACE_DEFAULT, h, hr]
  · intro hr hy
    simp [DFB_COLORSPACE_DEFAULT, hr, hy]
  · rintro ⟨hr, hy⟩
    rw [not_yuv_of_rgb hr] at hy
    cases hy

/-- Instance of C5 at the YUV format `DSPF_NV12`. -/
theorem colorspace_default_by_class_witness :
    DFB_COLOR_IS_YUV DSPF_NV12 = true ∧ DFB_COLORSPACE_DEFAULT DSPF_NV12 = DSCS_BT601 :=
  ⟨by decide, (colorspace_default_by_class DSPF_NV12).2.1 (by decide)⟩

/-- Claim C6, evaluated on the code.  Of the twenty formats documented with red,
green and blue channels exactly one, `DSPF_RGBA5551`, is not accepted by
`DFB_COLOR_IS_RGB`; it is not a YUV format either, so its default colour space
is `DSCS_UNKNOWN` instead of `DSCS_RGB`. -/
theorem rgba5551_missing_from_rgb_class :
    DSPF_RGBA5551 ∈ documentedRgbFormats
    ∧ DFB_COLOR_IS_RGB DSPF_RGBA5551 = false
    ∧ DFB_COLOR_IS_YUV DSPF_RGBA5551 = false
    ∧ DFB_COLORSPACE_DEFAULT DSPF_RGBA5551 = DSCS_UNKNOWN
    ∧ DFB_COLORSPACE_DEFAULT DSPF_RGBA5551 ≠ DSCS_RGB
    ∧ documentedRgbFormats.filter (fun fmt => !DFB_COLOR_IS_RGB fmt) = [DSPF_RGBA5551]
    ∧ documentedRgbFormats.filter (fun fmt => DFB_COLORSPACE_DEFAULT fmt != DSCS_RGB)
        = [DSPF_RGBA5551] := by
  decide

/-- The compatibility macro written out over the two colour-class macros it
calls: which colour spaces it accepts for a format that `DFB_COLOR_IS_RGB` or
`DFB_COLOR_IS_YUV` accepts. -/
theorem DFB_COLORSPACE_IS_COMPATIBLE_by_class (cs fmt : Nat) :
    (DFB_COLORSPACE_IS_COMPATIBLE cs fmt = true ↔
        (DFB_COLOR_IS_RGB fmt = true ∧ cs = DSCS_RGB)
        ∨ (DFB_COLOR_IS_YUV fmt = true
            ∧ (cs = DSCS_BT601 ∨ cs = DSCS_BT709 ∨ cs = DSCS_BT2020)))
    ∧ (DFB_COLOR_IS_RGB fmt = true →
        (DFB_COLORSPACE_IS_COMPATIBLE cs fmt = true ↔ cs = DSCS_RGB)
        ∧ definedColorSpaces.filter (fun c => DFB_COLORSPACE_IS_COMPATIBLE c fmt)
            = [DSCS_RGB])
    ∧ (DFB_COLOR_IS_YUV fmt = true →
        (DFB_COLORSPACE_IS_COMPATIBLE cs fmt = true ↔
            (cs = DSCS_BT601 ∨ cs = DSCS_BT709 ∨ cs = DSCS_BT2020))
        ∧ definedColorSpaces.filter (fun c => DFB_COLORSPACE_IS_COMPATIBLE c fmt)
            = [DSCS_BT601, DSCS_BT709, DSCS_BT2020])
    ∧ DFB_COLORSPACE_IS_COMPATIBLE DSCS_UNKNOWN fmt = false := by
  refine ⟨?_, ?_, ?_, ?_⟩
  · simp only [DFB_COLORSPACE_IS_COMPATIBLE, Bool.or_eq_true, Bool.and_eq_true, beq_iff_eq,
      or_assoc]
  · intro hr
    have hy := not_yuv_of_rgb hr
    constructor
    · simp [DFB_COLORSPACE_IS_COMPATIBLE, hr, hy]
    · simp [DFB_COLORSPACE_IS_COMPATIBLE, hr, hy, definedColorSpaces, List.filter,
        DSCS_UNKNOWN, DSCS_RGB, DSCS_BT601, DSCS_BT709, DSCS_BT2020]
  · intro hy
    have hr : DFB_COLOR_IS_RGB fmt = false := by
      cases hc : DFB_COLOR_IS_RGB fmt
      · rfl
      · rw [not_yuv_of_rgb hc] at hy; cases hy
    constructor
    · simp [DFB_COLORSPACE_IS_COMPATIBLE, hr, hy, or_assoc]
    · simp [DFB_COLORSPACE_IS_COMPATIBLE, hr, hy, definedColorSpaces, List.filter,
        DSCS_UNKNOWN, DSCS_RGB, DSCS_BT601, DSCS_BT709, DSCS_BT2020]
  · simp [DFB_COLORSPACE_IS_COMPATIBLE, DSCS_UNKNOWN, DSCS_RGB, DSCS_BT601, DSCS_BT709,
      DSCS_BT2020]

/-- Claim C7, evaluated on the code.  `DSPF_RGBA5551`, documented with red, green
and blue channels, is compatible with no colour space, not even `DSCS_RGB`:
`DFB_COLORSPACE_IS_COMPATIBLE` asks `DFB_COLOR_IS_RGB`, which omits it.  Every
other documented RGB format is compatible with `DSCS_RGB` alone, every
documented YUV format with `DSCS_BT601`, `DSCS_BT709` and `DSCS_BT2020` alone, and
`DSCS_UNKNOWN` with no defined format. -/
theorem rgba5551_incompatible_with_rgb_space :
    DSPF_RGBA5551 ∈ documentedRgbFormats
    ∧ DFB_COLORSPACE_IS_COMPATIBLE DSCS_RGB DSPF_RGBA5551 = false
    ∧ definedColorSpaces.filter (fun cs => DFB_COLORSPACE_IS_COMPATIBLE cs DSPF_RGBA5551) = []
    ∧ documentedRgbFormats.filter (fun fmt => !DFB_COLORSPACE_IS_COMPATIBLE DSCS_RGB fmt)
        = [DSPF_RGBA5551]
    ∧ (documentedRgbFormats.filter (fun fmt => fmt != DSPF_RGBA5551)).all
        (fun fmt => definedColorSpaces.filter
          (fun cs => DFB_COLORSPACE_IS_COMPATIBLE cs fmt) == [DSCS_RGB]) = true
    ∧ documentedYuvFormats.all
        (fun fmt => definedColorSpaces.filter
          (fun cs => DFB_COLORSPACE_IS_COMPATIBLE cs fmt)
            == [DSCS_BT601, DSCS_BT709, DSCS_BT2020]) = true
    ∧ definedPixelFormats.all (fun fmt => !DFB_COLORSPACE_IS_COMPATIBLE DSCS_UNKNOWN fmt)
        = true := by
  decide

/-! ## Flag masks -/

/-- Claim C8, evaluated on the code.  The OR of the fifteen individual
capability flags is `0x011313FF`, while `DSCAPS_ALL` is `0x011113FF`: it lacks
`DSCAPS_STEREO` and no other flag, so `DSCAPS_STEREO & ~DSCAPS_ALL` is not `0`. -/
theorem dscaps_all_lacks_stereo :
    orAll surfaceCapabilityFlags = 0x011313FF
    ∧ DSCAPS_ALL = 0x011113FF
    ∧ DSCAPS_ALL ≠ orAll surfaceCapabilityFlags
    ∧ DSCAPS_ALL ||| DSCAPS_STEREO = orAll surfaceCapabilityFlags
    ∧ DSCAPS_STEREO ∈ surfaceCapabilityFlags
    ∧ DSCAPS_STEREO &&& DSCAPS_ALL = 0
    ∧ DSCAPS_STEREO &&& not32 DSCAPS_ALL = DSCAPS_STEREO
    ∧ DSCAPS_STEREO &&& not32 DSCAPS_ALL ≠ 0
    ∧ surfaceCapabilityFlags.filter (fun f => f &&& not32 DSCAPS_ALL != 0)
        = [DSCAPS_STEREO] := by
  decide

/-- Claim C9, evaluated on the code.  The OR of the twelve individual function
flags, and `DFXL_ALL_DRAW | DFXL_ALL_BLIT`, is `0x010F103F`, while `DFXL_ALL`
is `0x010F003F`: it lacks `DFXL_DRAWMONOGLYPH` and no other flag, so
`DFXL_DRAWMONOGLYPH & DFXL_ALL` is `0`, not the flag. -/
theorem dfxl_all_lacks_drawmonoglyph :
    orAll accelerationFunctionFlags = 0x010F103F
    ∧ DFXL_ALL_DRAW ||| DFXL_ALL_BLIT = 0x010F103F
    ∧ DFXL_ALL = 0x010F003F
    ∧ DFXL_ALL ≠ DFXL_ALL_DRAW ||| DFXL_ALL_BLIT
    ∧ DFXL_ALL ≠ orAll accelerationFunctionFlags
    ∧ DFXL_ALL ||| DFXL_DRAWMONOGLYPH = orAll accelerationFunctionFlags
    ∧ DFXL_DRAWMONOGLYPH ∈ accelerationFunctionFlags
    ∧ DFXL_DRAWMONOGLYPH &&& DFXL_ALL = 0
    ∧ DFXL_DRAWMONOGLYPH &&& DFXL_ALL ≠ DFXL_DRAWMONOGLYPH
    ∧ DFXL_DRAWMONOGLYPH &&& DFXL_ALL_DRAW = DFXL_DRAWMONOGLYPH
    ∧ accelerationFunctionFlags.filter (fun f => f &&& DFXL_ALL != f)
        = [DFXL_DRAWMONOGLYPH] := by
  decide

/-- Claim C10.  For every 32-bit mask `a` the drawing part and the blitting part
or together to `a` and have no bit in common; `DFXL_ALL_DRAW` is entirely
drawing and `DFXL_ALL_BLIT` entirely blitting. -/
theorem drawing_blitting_split (a : Nat) (h : a < 2 ^ 32) :
    DFB_DRAWING_FUNCTION a ||| DFB_BLITTING_FUNCTION a = a
    ∧ DFB_DRAWING_FUNCTION a &&& DFB_BLITTING_FUNCTION a = 0
    ∧ DFB_DRAWING_FUNCTION DFXL_ALL_DRAW = DFXL_ALL_DRAW
    ∧ DFB_BLITTING_FUNCTION DFXL_ALL_DRAW = 0
    ∧ DFB_BLITTING_FUNCTION DFXL_ALL_BLIT = DFXL_ALL_BLIT
    ∧ DFB_DRAWING_FUNCTION DFXL_ALL_BLIT = 0 := by
  have hd : DFB_DRAWING_FUNCTION a = a % 2 ^ 16 := Nat.and_pow_two_sub_one_eq_mod a 16
  have hb : DFB_BLITTING_FUNCTION a = (a / 2 ^ 16 % 2 ^ 16) <<< 16 := by
    rw [Nat.shiftLeft_eq]
    exact and_fieldMask a 16 16
  refine ⟨?_, ?_, by decide, by decide, by decide, by decide⟩
  · rw [hd, hb, or_shiftLeft_eq_add 16 (Nat.mod_lt _ (Nat.two_pow_pos 16))]
    omega
  · have h1 : DFB_DRAWING_FUNCTION a &&& 0x0000FFFF = DFB_DRAWING_FUNCTION a := by
      unfold DFB_DRAWING_FUNCTION
      rw [Nat.and_assoc, Nat.and_self]
    have h2 : DFB_BLITTING_FUNCTION a &&& 0xFFFF0000 = DFB_BLITTING_FUNCTION a := by
      unfold DFB_BLITTING_FUNCTION
      rw [Nat.and_assoc, Nat.and_self]
    exact and_eq_zero_of_masks h1 h2 (by decide)

/-- Instance of C10 at the mask `0x010F103F` (every function flag set). -/
theorem drawing_blitting_split_witness :
    0x010F103F < 2 ^ 32
    ∧ DFB_DRAWING_FUNCTION 0x010F103F ||| DFB_BLITTING_FUNCTION 0x010F103F = 0x010F103F
    ∧ DFB_DRAWING_FUNCTION 0x010F103F &&& DFB_BLITTING_FUNCTION 0x010F103F = 0 :=
  ⟨by decide, (drawing_blitting_split 0x010F103F (by decide)).1,
    (drawing_blitting_split 0x010F103F (by decide)).2.1⟩

/-! ## Further flag masks -/

/-- Claim C11.  `DSDESC_ALL` (`0x37F`), `DSHF_ALL` (`0xF`), `DSEVT_ALL` (`0x3`) and
`DWET_ALL` (`0x013F033F`) are each the bitwise OR of all other members of their
enumeration, neither more nor less; each of the nine descriptor field flags is
contained in `DSDESC_ALL`. -/
theorem description_and_event_all_masks_exact :
    DSDESC_ALL = 0x37F ∧ orAll surfaceDescriptionMembers = DSDESC_ALL
    ∧ DSHF_ALL = 0xF ∧ orAll surfaceHintMembers = DSHF_ALL
    ∧ DSEVT_ALL = 0x3 ∧ orAll surfaceEventMembers = DSEVT_ALL
    ∧ DWET_ALL = 0x013F033F ∧ orAll windowEventMembers = DWET_ALL
    ∧ [DSDESC_CAPS, DSDESC_WIDTH, DSDESC_HEIGHT, DSDESC_PIXELFORMAT, DSDESC_PREALLOCATED,
        DSDESC_PALETTE, DSDESC_COLORSPACE, DSDESC_RESOURCE_ID, DSDESC_HINTS].all
        (fun f => f != 0 && f &&& DSDESC_ALL == f) = true := by
  decide

/-- Claim C14, evaluated on the code.  The OR of the 23 individual resolution
flags is `0x007FFFFF`, while `DSOR_ALL` is `0x004FFFFF`: it lacks exactly
`DSOR_2560_1600` and `DSOR_3840_2160`, so `DSOR_2560_1600 & DSOR_ALL` is `0`,
not the flag. -/
theorem dsor_all_lacks_two_resolutions :
    outputResolutionFlags.length = 23
    ∧ orAll outputResolutionFlags = 0x007FFFFF
    ∧ DSOR_ALL = 0x004FFFFF
    ∧ DSOR_ALL ≠ orAll outputResolutionFlags
    ∧ DSOR_ALL ||| DSOR_2560_1600 ||| DSOR_3840_2160 = orAll outputResolutionFlags
    ∧ DSOR_2560_1600 ∈ outputResolutionFlags
    ∧ DSOR_2560_1600 &&& DSOR_ALL = 0
    ∧ DSOR_2560_1600 &&& DSOR_ALL ≠ DSOR_2560_1600
    ∧ DSOR_3840_2160 &&& DSOR_ALL ≠ DSOR_3840_2160
    ∧ outputResolutionFlags.filter (fun r => r &&& DSOR_ALL != r)
        = [DSOR_2560_1600, DSOR_3840_2160] := by
  decide

/-- Claim C15, evaluated on the code.  The OR of the nine defined display layer
options is `0x0000037F`, while `DLOP_ALL` is `0x000003FF`: it contains every
option and, besides, the bit `0x00000080`, which is the value of no option. -/
theorem dlop_all_has_undefined_bit :
    displayLayerOptionFlags.length = 9
    ∧ orAll displayLayerOptionFlags = 0x0000037F
    ∧ DLOP_ALL = 0x000003FF
    ∧ DLOP_ALL ≠ orAll displayLayerOptionFlags
    ∧ DLOP_ALL = orAll displayLayerOptionFlags ||| 0x00000080
    ∧ DLOP_ALL &&& not32 (orAll displayLayerOptionFlags) = 0x00000080
    ∧ 0x00000080 ∉ displayLayerOptionFlags
    ∧ displayLayerOptionFlags.all (fun o => o &&& 0x00000080 == 0) = true
    ∧ displayLayerOptionFlags.all (fun o => o &&& DLOP_ALL == o) = true := by
  decide

/-! ## Storage size and plane multiplier -/

/-- Claim C12.  For every format documented as `N byte` per pixel the registry
has `DFB_BYTES_PER_PIXEL = N` and `DFB_BITS_PER_PIXEL = 8 * N`, and for every
format documented as `N byte/ M pixel` it has `DFB_BITS_PER_PIXEL = 8 * N / M`.
`DSPF_ALUT8`, documented by its parts (`1 byte alpha and 8 bit color lookup`),
has two bytes per pixel. -/
theorem storage_size_matches_documentation :
    (∀ p ∈ documentedBytesPerPixel,
        DFB_BYTES_PER_PIXEL p.1 = p.2 ∧ DFB_BITS_PER_PIXEL p.1 = 8 * p.2)
    ∧ (∀ q ∈ documentedBytesPerPixels, DFB_BITS_PER_PIXEL q.1 = 8 * q.2.1 / q.2.2)
    ∧ documentedBytesPerPixel.length = 25
    ∧ documentedBytesPerPixels
        = [(DSPF_YUY2, 4, 2), (DSPF_UYVY, 4, 2), (DSPF_A1, 1, 8), (DSPF_A4, 1, 2),
           (DSPF_LUT2, 1, 4), (DSPF_A1_LSB, 1, 8), (DSPF_LUT4, 1, 2), (DSPF_LUT1, 1, 8)]
    ∧ DFB_BYTES_PER_PIXEL DSPF_ALUT8 = 2 ∧ DFB_BITS_PER_PIXEL DSPF_ALUT8 = 16 := by
  decide

/-- Instance of C12 at `DSPF_ARGB8565` (3 byte) and `DSPF_LUT2` (1 byte/ 4 pixel). -/
theorem storage_size_matches_documentation_witness :
    ((DSPF_ARGB8565, 3) ∈ documentedBytesPerPixel
      ∧ DFB_BYTES_PER_PIXEL DSPF_ARGB8565 = 3 ∧ DFB_BITS_PER_PIXEL DSPF_ARGB8565 = 8 * 3)
    ∧ ((DSPF_LUT2, 1, 4) ∈ documentedBytesPerPixels
      ∧ DFB_BITS_PER_PIXEL DSPF_LUT2 = 8 * 1 / 4) :=
  ⟨⟨by decide, storage_size_matches_documentation.1 (DSPF_ARGB8565, 3) (by decide)⟩,
   ⟨by decide, storage_size_matches_documentation.2.1 (DSPF_LUT2, 1, 4) (by decide)⟩⟩

/-- The plane multiplier of a value whose plane field is `k`. -/
theorem DFB_PLANE_MULTIPLY_of_bits {fmt k : Nat} (hk : planeMultiplierBits fmt = k)
    (h : Nat) : DFB_PLANE_MULTIPLY fmt h = (k + 4) * h / 4 := by
  unfold DFB_PLANE_MULTIPLY
  rw [hk]
  exact Nat.shiftRight_eq_div_pow _ 2

/-- Claim C13.  For every height `h`: `DFB_PLANE_MULTIPLY` is `h` on every defined
non-planar format, `3h/2` rounded down on the quarter-size chroma formats, `2h`
on the half-size chroma formats and `3h` on the full-size chroma formats; for
every format value it is monotone in the height and at least the height; and
whenever the product fits in 31 bits the 32-bit evaluation of the macro is the
same number. -/
theorem plane_multiply_by_chroma_layout (h : Nat) :
    (∀ fmt ∈ definedPixelFormats, DFB_PLANAR_PIXELFORMAT fmt = false →
        DFB_PLANE_MULTIPLY fmt h = h)
    ∧ (∀ fmt ∈ quarterSizeChromaFormats, DFB_PLANE_MULTIPLY fmt h = 3 * h / 2)
    ∧ (∀ fmt ∈ halfSizeChromaFormats, DFB_PLANE_MULTIPLY fmt h = 2 * h)
    ∧ (∀ fmt ∈ fullSizeChromaFormats, DFB_PLANE_MULTIPLY fmt h = 3 * h)
    ∧ (∀ fmt h2 : Nat, h ≤ h2 → DFB_PLANE_MULTIPLY fmt h ≤ DFB_PLANE_MULTIPLY fmt h2)
    ∧ (∀ fmt : Nat, h ≤ DFB_PLANE_MULTIPLY fmt h)
    ∧ (∀ fmt : Nat, (planeMultiplierBits fmt + 4) * h < 2 ^ 31 →
        DFB_PLANE_MULTIPLY_32 fmt h = DFB_PLANE_MULTIPLY fmt h) := by
  refine ⟨?_, ?_, ?_, ?_, ?_, ?_, ?_⟩
  · intro fmt hmem hplanar
    have hall : ∀ f ∈ definedPixelFormats, DFB_PLANAR_PIXELFORMAT f = false →
        planeMultiplierBits f = 0 := by decide
    rw [DFB_PLANE_MULTIPLY_of_bits (hall fmt hmem hplanar)]
    omega
  · intro fmt hmem
    have hall : ∀ f ∈ quarterSizeChromaFormats, planeMultiplierBits f = 2 := by decide
    rw [DFB_PLANE_MULTIPLY_of_bits (hall fmt hmem)]
    omega
  · intro fmt hmem
    have hall : ∀ f ∈ halfSizeChromaFormats, planeMultiplierBits f = 4 := by decide
    rw [DFB_PLANE_MULTIPLY_of_bits (hall fmt hmem)]
    omega
  · intro fmt hmem
    have hall : ∀ f ∈ fullSizeChromaFormats, planeMultiplierBits f = 8 := by decide
    rw [DFB_PLANE_MULTIPLY_of_bits (hall fmt hmem)]
    omega
  · intro fmt h2 hle
    rw [DFB_PLANE_MULTIPLY_of_bits rfl, DFB_PLANE_MULTIPLY_of_bits rfl]
    exact Nat.div_le_div_right (Nat.mul_le_mul_left _ hle)
  · intro fmt
    rw [DFB_PLANE_MULTIPLY_of_bits rfl, Nat.le_div_iff_mul_le (by decide)]
    rw [Nat.mul_comm h 4]
    exact Nat.mul_le_mul_right _ (Nat.le_add_left 4 _)
  · intro fmt hlt
    unfold DFB_PLANE_MULTIPLY_32 DFB_PLANE_MULTIPLY
    rw [Nat.mod_eq_of_lt (by omega)]

/-- Instance of C13 at height 5: `DSPF_ARGB` keeps 5 rows, `DSPF_NV12` takes 7,
`DSPF_NV16` 10 and `DSPF_Y444` 15. -/
theorem plane_multiply_by_chroma_layout_witness :
    (DSPF_ARGB ∈ definedPixelFormats ∧ DFB_PLANAR_PIXELFORMAT DSPF_ARGB = false
      ∧ DFB_PLANE_MULTIPLY DSPF_ARGB 5 = 5)
    ∧ (DSPF_NV12 ∈ quarterSizeChromaFormats ∧ DFB_PLANE_MULTIPLY DSPF_NV12 5 = 3 * 5 / 2)
    ∧ (DSPF_NV16 ∈ halfSizeChromaFormats ∧ DFB_PLANE_MULTIPLY DSPF_NV16 5 = 2 * 5)
    ∧ (DSPF_Y444 ∈ fullSizeChromaFormats ∧ DFB_PLANE_MULTIPLY DSPF_Y444 5 = 3 * 5)
    ∧ ((planeMultiplierBits DSPF_Y444 + 4) * 5 < 2 ^ 31
      ∧ DFB_PLANE_MULTIPLY_32 DSPF_Y444 5 = DFB_PLANE_MULTIPLY DSPF_Y444 5) :=
  ⟨⟨by decide, by decide,
     (plane_multiply_by_chroma_layout 5).1 DSPF_ARGB (by decide) (by decide)⟩,
   ⟨by decide, (plane_multiply_by_chroma_layout 5).2.1 DSPF_NV12 (by decide)⟩,
   ⟨by decide, (plane_multiply_by_chroma_layout 5).2.2.1 DSPF_NV16 (by decide)⟩,
   ⟨by decide, (plane_multiply_by_chroma_layout 5).2.2.2.1 DSPF_Y444 (by decide)⟩,
   ⟨by decide, (plane_multiply_by_chroma_layout 5).2.2.2.2.2.2 DSPF_Y444 (by decide)⟩⟩

/-! ## Event buffer -/

theorem EventBuffer.run_append {ε : Type} (xs ys : List (EventBufferMethod ε)) :
    ∀ b : EventBuffer ε, b.run (xs ++ ys) = b.run xs ++ (b.after xs).run ys := by
  induction xs with
  | nil => intro b; rfl
  | cons m ms ih =>
    intro b
    simp only [List.cons_append, EventBuffer.run, EventBuffer.after, List.append_eq, ih]

theorem EventBuffer.run_length {ε : Type} (ms : List (EventBufferMethod ε)) :
    ∀ b : EventBuffer ε, (b.run ms).length = ms.length := by
  induction ms with
  | nil => intro b; rfl
  | cons m ms ih => intro b; simp only [EventBuffer.run, List.length_cons, ih]

/-- Posting to an active buffer appends to the FIFO and succeeds. -/
theorem EventBuffer.posts_active {ε : Type} (es : List ε) :
    ∀ b : EventBuffer ε, b.exported = false →
      (b.run (es.map .PostEvent)).map (fun r => r.result) = es.map (fun _ => some .DFB_OK)
      ∧ b.after (es.map .PostEvent) = { b with fifo := b.fifo ++ es } := by
  induction es with
  | nil => intro b _; simp [EventBuffer.run, EventBuffer.after]
  | cons e es ih =>
    intro b hb
    have hcall : b.call (.PostEvent e)
        = { result := some .DFB_OK, ret_event := none,
            buffer := { b with fifo := b.fifo ++ [e] } } := by
      simp [EventBuffer.call, hb]
    have ih2 := ih { b with fifo := b.fifo ++ [e] } hb
    simp only [List.map_cons, EventBuffer.run, EventBuffer.after, hcall, ih2.1, ih2.2,
      List.append_assoc, List.singleton_append, and_self]

/-- Fetching as many events as are pending from an active buffer returns the
pending events, oldest first, and every fetch succeeds. -/
theorem EventBuffer.gets_active {ε : Type} (q : List ε) :
    ∀ b : EventBuffer ε, b.exported = false → b.fifo = q →
      (b.run (List.replicate q.length .GetEvent)).map (fun r => r.ret_event) = q.map some
      ∧ (b.run (List.replicate q.length .GetEvent)).map (fun r => r.result)
          = q.map (fun _ => some .DFB_OK)
      ∧ (b.after (List.replicate q.length .GetEvent)).fifo = [] := by
  induction q with
  | nil => intro b _ hq; simp [EventBuffer.run, EventBuffer.after, hq]
  | cons e q ih =>
    intro b hb hq
    have hcall : b.call .GetEvent
        = { result := some .DFB_OK, ret_event := some e, buffer := { b with fifo := q } } := by
      simp [EventBuffer.call, hb, hq]
    have ih2 := ih { b with fifo := q } hb rfl
    simp only [List.length_cons, List.replicate_succ, EventBuffer.run, EventBuffer.after,
      hcall, List.map_cons, ih2.1, ih2.2.1, ih2.2.2, and_self]

/-- In every run of an active buffer without `Reset` and `CreateFileDescriptor`,
whatever the interleaving of the other calls, the events fetched so far followed
by the pending events are the events initially pending followed by the events
posted so far: events leave the buffer in the order in which they entered. -/
theorem EventBuffer.fetched_append_fifo {ε : Type} (ms : List (EventBufferMethod ε)) :
    ∀ b : EventBuffer ε, b.exported = false → (∀ m ∈ ms, m.keepsFifo = true) →
      b.fetched ms ++ (b.after ms).fifo = b.fifo ++ postedEvents ms
      ∧ (b.after ms).exported = false := by
  induction ms with
  | nil => intro b hb _; simp [EventBuffer.fetched, EventBuffer.after, postedEvents, hb]
  | cons m ms ih =>
    intro b hb hall
    have hm := hall m (List.mem_cons_self _ _)
    have hms : ∀ x ∈ ms, x.keepsFifo = true := fun x hx => hall x (List.mem_cons_of_mem _ hx)
    cases m with
    | Reset => cases hm
    | CreateFileDescriptor => cases hm
    | GetEvent =>
      cases hq : b.fifo with
      | nil =>
        have hcall : b.call .GetEvent
            = { result := some .DFB_BUFFEREMPTY, ret_event := none, buffer := b } := by
          simp [EventBuffer.call, hb, hq]
        have ih2 := ih b hb hms
        simp only [EventBuffer.fetched, EventBuffer.after, postedEvents, hcall,
          Option.toList, List.nil_append]
        rw [hq] at ih2
        exact ih2
      | cons e q =>
        have hcall : b.call .GetEvent
            = { result := some .DFB_OK, ret_event := some e,
                buffer := { b with fifo := q } } := by
          simp [EventBuffer.call, hb, hq]
        have ih2 := ih { b with fifo := q } hb hms
        simp only [EventBuffer.fetched, EventBuffer.after, postedEvents, hcall,
          Option.toList, List.cons_append, List.nil_append]
        exact ⟨by rw [ih2.1], ih2.2⟩
    | PostEvent e =>
      have hcall : b.call (.PostEvent e)
          = { result := some .DFB_OK, ret_event := none,
              buffer := { b with fifo := b.fifo ++ [e] } } := by
        simp [EventBuffer.call, hb]
      have ih2 := ih { b with fifo := b.fifo ++ [e] } hb hms
      simp only [EventBuffer.fetched, EventBuffer.after, postedEvents, hcall]
      exact ⟨by rw [ih2.1]; simp, ih2.2⟩
    | PeekEvent =>
      have hbuf : (b.call .PeekEvent).buffer = b := by
        cases hq : b.fifo <;> simp [EventBuffer.call, hb, hq]
      simp only [EventBuffer.fetched, EventBuffer.after, postedEvents, hbuf]
      exact ih b hb hms
    | HasEvent =>
      have hbuf : (b.call .HasEvent).buffer = b := by
        cases hq : b.fifo <;> simp [EventBuffer.call, hb, hq]
      simp only [EventBuffer.fetched, EventBuffer.after, postedEvents, hbuf]
      exact ih b hb hms
    | GetStatistics =>
      have hbuf : (b.call .GetStatistics).buffer = b := by
        simp [EventBuffer.call, hb]
      simp only [EventBuffer.fetched, EventBuffer.after, postedEvents, hbuf]
      exact ih b hb hms
    | WakeUp =>
      have hbuf : (b.call .WakeUp).buffer = { b with wake := true } := by
        simp [EventBuffer.call, hb]
      simp only [EventBuffer.fetched, EventBuffer.after, postedEvents, hbuf]
      exact ih { b with wake := true } hb hms
    | EnableStatistics enable =>
      have hbuf : (b.call (.EnableStatistics enable)).buffer
          = { b with statistics := enable } := by
        simp [EventBuffer.call, hb]
      simp only [EventBuffer.fetched, EventBuffer.after, postedEvents, hbuf]
      exact ih { b with statistics := enable } hb hms
    | WaitForEvent =>
      have hbuf : (b.call .WaitForEvent).buffer.fifo = b.fifo
          ∧ (b.call .WaitForEvent).buffer.exported = false := by
        simp only [EventBuffer.call, hb, Bool.false_eq_true, if_false]
        split_ifs <;> simp [hb]
      have ih2 := ih (b.call .WaitForEvent).buffer hbuf.2 hms
      simp only [EventBuffer.fetched, EventBuffer.after, postedEvents]
      rw [hbuf.1] at ih2
      exact ih2
    | WaitForEventWithTimeout sec msec =>
      have hbuf : (b.call (.WaitForEventWithTimeout sec msec)).buffer.fifo = b.fifo
          ∧ (b.call (.WaitForEventWithTimeout sec msec)).buffer.exported = false := by
        simp only [EventBuffer.call, hb, Bool.false_eq_true, if_false]
        split_ifs <;> simp [hb]
      have ih2 := ih (b.call (.WaitForEventWithTimeout sec msec)).buffer hbuf.2 hms
      simp only [EventBuffer.fetched, EventBuffer.after, postedEvents]
      rw [hbuf.1] at ih2
      exact ih2

/-- An exported buffer stays exported whatever is called. -/
theorem EventBuffer.exported_after {ε : Type} (ms : List (EventBufferMethod ε)) :
    ∀ x : EventBuffer ε, x.exported = true → (x.after ms).exported = true := by
  induction ms with
  | nil => intro x hx; exact hx
  | cons m ms ih =>
    intro x hx
    have hstep : (x.call m).buffer.exported = true := by
      cases m <;> simp [EventBuffer.call, hx]
    exact ih _ hstep

/-- What each method returns on an exported buffer. -/
theorem EventBuffer.call_exported {ε : Type} (x : EventBuffer ε) (hx : x.exported = true)
    (m : EventBufferMethod ε) :
    (x.call .CreateFileDescriptor).result = some .DFB_BUSY
    ∧ (∀ e, (x.call (.PostEvent e)).result = some .DFB_OK)
    ∧ ((∀ e, m ≠ .PostEvent e) → m ≠ .CreateFileDescriptor →
        (x.call m).result = some .DFB_UNSUPPORTED) := by
  refine ⟨by simp [EventBuffer.call, hx], fun e => by simp [EventBuffer.call, hx], ?_⟩
  intro hpost hcreate
  cases m with
  | PostEvent e => exact absurd rfl (hpost e)
  | CreateFileDescriptor => exact absurd rfl hcreate
  | _ => simp [EventBuffer.call, hx]

/-- Claim C19.  After the events `e1, ..., en` have been posted with `PostEvent` to
an active, empty event buffer, with no call in between, `n` successive `GetEvent`
calls succeed and return `e1, ..., en` in exactly that order; on every active
buffer `PeekEvent` returns what the next `GetEvent` returns and leaves the
buffer as it is. -/
theorem event_fifo_order {ε : Type} (b : EventBuffer ε) (es : List ε)
    (hactive : b.exported = false) (hempty : b.fifo = []) :
    (b.run (es.map .PostEvent ++ List.replicate es.length .GetEvent)).map
        (fun r => r.result) = List.replicate (es.length + es.length) (some .DFB_OK)
    ∧ ((b.run (es.map .PostEvent ++ List.replicate es.length .GetEvent)).drop
        es.length).map (fun r => r.ret_event) = es.map some
    ∧ (∀ a : EventBuffer ε, a.exported = false →
        (a.call .PeekEvent).ret_event = (a.call .GetEvent).ret_event
        ∧ (a.call .PeekEvent).result = (a.call .GetEvent).result
        ∧ (a.call .PeekEvent).buffer = a) := by
  have hpost := EventBuffer.posts_active es b hactive
  have hafter : b.after (es.map .PostEvent) = { b with fifo := es } := by
    rw [hpost.2, hempty, List.nil_append]
  have hget := EventBuffer.gets_active es { b with fifo := es } hactive rfl
  have hlen : (b.run (es.map EventBufferMethod.PostEvent)).length = es.length := by
    rw [EventBuffer.run_length, List.length_map]
  refine ⟨?_, ?_, ?_⟩
  · rw [EventBuffer.run_append, List.map_append, hpost.1, hafter, hget.2.1,
      List.replicate_add]
    simp [List.map_const, Function.const]
  · rw [EventBuffer.run_append, List.drop_left' hlen, hafter, hget.1]
  · intro a ha
    cases hq : a.fifo <;> simp [EventBuffer.call, ha, hq]

/-- Instance of C19: the events 7, 8, 9 posted to a new buffer. -/
theorem event_fifo_order_witness :
    (EventBuffer.create Nat).exported = false
    ∧ (EventBuffer.create Nat).fifo = []
    ∧ (((EventBuffer.create Nat).run
          ([.PostEvent 7, .PostEvent 8, .PostEvent 9, .GetEvent, .GetEvent, .GetEvent])).drop
        3).map (fun r => r.ret_event) = [some 7, some 8, some 9] :=
  ⟨rfl, rfl, (event_fifo_order (EventBuffer.create Nat) [7, 8, 9] rfl rfl).2.1⟩

/-- Claim C20.  `CreateFileDescriptor` on an active buffer succeeds and exports the
buffer.  After that, whatever calls are made, the buffer stays exported, a
further `CreateFileDescriptor` returns `DFB_BUSY`, `PostEvent` still succeeds,
and every method other than these two returns `DFB_UNSUPPORTED`. -/
theorem export_is_one_way {ε : Type} (b : EventBuffer ε) (hactive : b.exported = false)
    (ms : List (EventBufferMethod ε)) (m : EventBufferMethod ε) :
    (b.call .CreateFileDescriptor).result = some .DFB_OK
    ∧ (b.call .CreateFileDescriptor).buffer.exported = true
    ∧ ((b.call .CreateFileDescriptor).buffer.after ms).exported = true
    ∧ (((b.call .CreateFileDescriptor).buffer.after ms).call .CreateFileDescriptor).result
        = some .DFB_BUSY
    ∧ ((∀ e, m ≠ .PostEvent e) → m ≠ .CreateFileDescriptor →
        (((b.call .CreateFileDescriptor).buffer.after ms).call m).result
          = some .DFB_UNSUPPORTED)
    ∧ (∀ e, (((b.call .CreateFileDescriptor).buffer.after ms).call (.PostEvent e)).result
        = some .DFB_OK) := by
  have h1 : (b.call .CreateFileDescriptor).buffer.exported = true := by
    simp [EventBuffer.call, hactive]
  have h2 := EventBuffer.exported_after ms _ h1
  have h3 := EventBuffer.call_exported _ h2 m
  exact ⟨by simp [EventBuffer.call, hactive], h1, h2, h3.1, h3.2.2, h3.2.1⟩

/-- Instance of C20: after the export of a new buffer and three further calls,
`GetEvent` returns `DFB_UNSUPPORTED`. -/
theorem export_is_one_way_witness :
    (EventBuffer.create Nat).exported = false
    ∧ ((((EventBuffer.create Nat).call .CreateFileDescriptor).buffer.after
          [.GetEvent, .PostEvent 1, .Reset]).call .GetEvent).result
        = some .DFB_UNSUPPORTED :=
  ⟨rfl, (export_is_one_way (EventBuffer.create Nat) rfl [.GetEvent, .PostEvent 1, .Reset]
    .GetEvent).2.2.2.2.1 (fun e h => by cases h) (fun h => by cases h)⟩

/-! ## Surface buffers -/

/-- Flipped through a sub-surface, the buffers keep their roles, with or without
region and whatever the flags: the update is a copy. -/
theorem Surface.Flip_subsurface (s : Surface) (region : Option DFBRegion) (flags : Nat) :
    (s.GetSubSurface.Flip region flags).2.buffers = s.buffers := by
  unfold Surface.Flip
  split
  · rfl
  · simp [flipSwaps, Surface.GetSubSurface]

/-- A write request is on the same buffer whatever other flags it carries. -/
theorem Surface.lockTarget_write (s : Surface) {flags : Nat} (h : flags &&& DSLF_WRITE ≠ 0) :
    s.lockTarget flags = s.lockTarget DSLF_WRITE := by
  have hw : DSLF_WRITE ≠ 0 := by decide
  simp [Surface.lockTarget, h, hw]

/-- The buffer a lock is on depends on the capability flags and the buffer roles
only. -/
theorem Surface.lockTarget_congr {s t : Surface} (hcaps : t.caps = s.caps)
    (hbuffers : t.buffers = s.buffers) (flags : Nat) :
    t.lockTarget flags = s.lockTarget flags := by
  simp only [Surface.lockTarget, Surface.front, Surface.back, hcaps, hbuffers]

/-- While a context holds the write lock and every other lock is a read lock of
another context, a call by another context leaves the capability flags, the
buffer roles and the write lock as they are, and adds no write lock. -/
theorem Surface.call_keeps_writer (s : Surface) (holder : Nat) (c : SurfaceCall)
    (hc : c.context ≠ holder) (ls : List SurfaceLock)
    (hlocks : s.locks = ls ++ [⟨holder, s.lockTarget DSLF_WRITE, true⟩])
    (hls : ∀ l ∈ ls, l.context ≠ holder ∧ l.write = false) :
    (s.call c).caps = s.caps ∧ (s.call c).buffers = s.buffers
    ∧ ∃ ks, (s.call c).locks = ks ++ [⟨holder, s.lockTarget DSLF_WRITE, true⟩]
        ∧ ∀ l ∈ ks, l.context ≠ holder ∧ l.write = false := by
  cases c with
  | Lock context flags =>
    have hctx : context ≠ holder := hc
    simp only [Surface.call, Surface.Lock]
    split
    · exact ⟨rfl, rfl, ls, hlocks, hls⟩
    · rename_i hfree
      refine ⟨rfl, rfl, ⟨context, s.lockTarget flags, flags &&& DSLF_WRITE != 0⟩ :: ls, ?_, ?_⟩
      · simp only [hlocks, List.cons_append]
      · intro l hl
        rcases List.mem_cons.1 hl with rfl | hl
        · refine ⟨hctx, ?_⟩
          by_contra hwrite
          have hbit : flags &&& DSLF_WRITE ≠ 0 := by
            intro h0
            simp [h0] at hwrite
          apply hfree
          rw [List.any_eq_true]
          refine ⟨⟨holder, s.lockTarget DSLF_WRITE, true⟩, ?_, ?_⟩
          · rw [hlocks]; simp
          · simp [s.lockTarget_write hbit, Ne.symm hctx]
        · exact hls l hl
  | Unlock context =>
    have hctx : context ≠ holder := hc
    refine ⟨rfl, rfl, ?_⟩
    simp only [Surface.call, Surface.Unlock]
    by_cases hany : ∃ l ∈ ls, (l.context == context) = true
    · obtain ⟨l, hl, hp⟩ := hany
      refine ⟨ls.eraseP (fun l => l.context == context), ?_, ?_⟩
      · simp only [hlocks]
        exact @List.eraseP_append_left _ (fun l => l.context == context) l hp ls _ hl
      · intro k hk
        exact hls k (List.mem_of_mem_eraseP hk)
    · refine ⟨ls, ?_, hls⟩
      have hnone : ∀ l ∈ ls, ¬ (l.context == context) = true := fun l hl hp => hany ⟨l, hl, hp⟩
      simp only [hlocks]
      rw [List.eraseP_append_right _ hnone]
      have hh : ¬ ((holder == context) = true) := by
        simpa using Ne.symm hctx
      simp [List.eraseP_cons, hh]
  | Flip context region flags =>
    have hne : s.locks.isEmpty = false := by
      rw [hlocks]; cases ls <;> rfl
    simp only [Surface.call, Surface.Flip, hne]
    exact ⟨rfl, rfl, ls, hlocks, hls⟩

/-- The same over a sequence of calls, none of them by the holder. -/
theorem Surface.after_keeps_writer (cs : List SurfaceCall) (holder : Nat)
    (hcs : ∀ c ∈ cs, c.context ≠ holder) :
    ∀ (s : Surface) (ls : List SurfaceLock),
      s.locks = ls ++ [⟨holder, s.lockTarget DSLF_WRITE, true⟩] →
      (∀ l ∈ ls, l.context ≠ holder ∧ l.write = false) →
      (s.after cs).caps = s.caps ∧ (s.after cs).buffers = s.buffers
      ∧ ∃ ks, (s.after cs).locks = ks ++ [⟨holder, s.lockTarget DSLF_WRITE, true⟩]
          ∧ ∀ l ∈ ks, l.context ≠ holder ∧ l.write = false := by
  induction cs with
  | nil => intro s ls hlocks hls; exact ⟨rfl, rfl, ls, hlocks, hls⟩
  | cons c cs ih =>
    intro s ls hlocks hls
    have hstep := s.call_keeps_writer holder c (hcs c (List.mem_cons_self _ _)) ls hlocks hls
    obtain ⟨hcaps, hbuffers, ks, hks, hks2⟩ := hstep
    have htarget := Surface.lockTarget_congr hcaps hbuffers DSLF_WRITE
    have hrest := ih (fun x hx => hcs x (List.mem_cons_of_mem _ hx)) (s.call c) ks
      (by rw [htarget]; exact hks) hks2
    rw [htarget] at hrest
    simp only [Surface.after]
    exact ⟨hrest.1.trans hcaps, hrest.2.1.trans hbuffers, hrest.2.2⟩

/-- A write request of a context is refused with `DFB_LOCKED`, and changes
nothing, while another context holds a write lock on the back (or only)
buffer. -/
theorem Surface.Lock_refused (t : Surface) (holder other flags : Nat) (hne : other ≠ holder)
    (hw : flags &&& DSLF_WRITE ≠ 0)
    (hheld : (⟨holder, t.lockTarget DSLF_WRITE, true⟩ : SurfaceLock) ∈ t.locks) :
    t.Lock other flags = { result := .DFB_LOCKED, ret_ptr := none, surface := t } := by
  have hany : t.locks.any (fun l =>
      l.allocation == t.lockTarget flags && l.write && l.context != other) = true := by
    rw [List.any_eq_true]
    exact ⟨_, hheld, by simp [t.lockTarget_write hw, Ne.symm hne]⟩
  simp only [Surface.Lock, hany, if_true]

/-- A request is granted, on the buffer the flags select, when no write lock is
outstanding. -/
theorem Surface.Lock_granted (t : Surface) (context flags : Nat)
    (hread : ∀ l ∈ t.locks, l.write = false) :
    (t.Lock context flags).result = .DFB_OK
    ∧ (t.Lock context flags).ret_ptr = some (t.lockTarget flags) := by
  have hany : t.locks.any (fun l =>
      l.allocation == t.lockTarget flags && l.write && l.context != context) = false := by
    rw [List.any_eq_false]
    intro l hl
    simp [hread l hl]
  simp [Surface.Lock, hany]

/-- Claim C18.  On a surface that is not locked, a write `Lock` of the context
`holder` is granted.  From then on, whatever the other contexts call, every write
`Lock` request of another context, which is on the same allocation, fails with
`DFB_LOCKED` and changes nothing; once the holder has called `Unlock` the request
is granted, on that allocation.  A write lock on a double or triple buffered
surface is on the back buffer; every other lock is on the front buffer. -/
theorem write_lock_mutual_exclusion (s : Surface) (holder other flags flags2 : Nat)
    (cs : List SurfaceCall) (hfree : s.locks = []) (hne : other ≠ holder)
    (hw : flags &&& DSLF_WRITE ≠ 0) (hw2 : flags2 &&& DSLF_WRITE ≠ 0)
    (hcs : ∀ c ∈ cs, c.context ≠ holder) :
    (s.Lock holder flags).result = .DFB_OK
    ∧ (s.Lock holder flags).ret_ptr = some (s.lockTarget DSLF_WRITE)
    ∧ ((s.Lock holder flags).surface.after cs).lockTarget flags2 = s.lockTarget DSLF_WRITE
    ∧ (((s.Lock holder flags).surface.after cs).Lock other flags2).result = .DFB_LOCKED
    ∧ (((s.Lock holder flags).surface.after cs).Lock other flags2).surface
        = (s.Lock holder flags).surface.after cs
    ∧ ((((s.Lock holder flags).surface.after cs).Unlock holder).2.Lock other flags2).result
        = .DFB_OK
    ∧ ((((s.Lock holder flags).surface.after cs).Unlock holder).2.Lock other flags2).ret_ptr
        = some (s.lockTarget DSLF_WRITE)
    ∧ (s.caps &&& DSCAPS_FLIPPING ≠ 0 → s.lockTarget flags = s.back)
    ∧ (∀ f : Nat, s.caps &&& DSCAPS_FLIPPING = 0 ∨ f &&& DSLF_WRITE = 0 →
        s.lockTarget f = s.front) := by
  have hgrant := s.Lock_granted holder flags (by rw [hfree]; intro l hl; cases hl)
  have hsurf : (s.Lock holder flags).surface
      = { s with locks := [⟨holder, s.lockTarget DSLF_WRITE, true⟩] } := by
    have hany : s.locks.any (fun l =>
        l.allocation == s.lockTarget flags && l.write && l.context != holder) = false := by
      rw [hfree]; rfl
    simp [Surface.Lock, hany, hfree, s.lockTarget_write hw, hw]
  have htarget1 : ({ s with locks := [⟨holder, s.lockTarget DSLF_WRITE, true⟩] } :
      Surface).lockTarget DSLF_WRITE = s.lockTarget DSLF_WRITE :=
    Surface.lockTarget_congr rfl rfl _
  have hinv := Surface.after_keeps_writer cs holder hcs
    { s with locks := [⟨holder, s.lockTarget DSLF_WRITE, true⟩] } []
    (by rw [htarget1]; rfl) (by intro l hl; cases hl)
  rw [htarget1] at hinv
  rw [hsurf]
  generalize Surface.after { s with locks := [⟨holder, s.lockTarget DSLF_WRITE, true⟩] } cs
    = t at hinv ⊢
  obtain ⟨hcaps, hbuffers, ks, hks, hks2⟩ := hinv
  have htarget2 : t.lockTarget DSLF_WRITE = s.lockTarget DSLF_WRITE :=
    Surface.lockTarget_congr hcaps hbuffers _
  have hheld : (⟨holder, t.lockTarget DSLF_WRITE, true⟩ : SurfaceLock) ∈ t.locks := by
    rw [hks, htarget2]; simp
  have hrefused := t.Lock_refused holder other flags2 hne hw2 hheld
  have hunlocked : (t.Unlock holder).2 = { t with locks := ks } := by
    have hnone : ∀ l ∈ ks, ¬ (l.context == holder) = true := by
      intro l hl hp
      exact (hks2 l hl).1 (by simpa using hp)
    simp only [Surface.Unlock, hks]
    rw [List.eraseP_append_right _ hnone]
    simp
  have hgrant2 := Surface.Lock_granted { t with locks := ks } other flags2
    (fun l hl => (hks2 l hl).2)
  have htarget3 : ({ t with locks := ks } : Surface).lockTarget flags2
      = s.lockTarget DSLF_WRITE := by
    rw [Surface.lockTarget_write _ hw2]
    exact Surface.lockTarget_congr hcaps hbuffers _
  refine ⟨hgrant.1, ?_, ?_, ?_, ?_, ?_, ?_, ?_, ?_⟩
  · rw [hgrant.2, s.lockTarget_write hw]
  · rw [t.lockTarget_write hw2, htarget2]
  · rw [hrefused]
  · rw [hrefused]
  · rw [hunlocked]; exact hgrant2.1
  · rw [hunlocked, hgrant2.2, htarget3]
  · intro hflip
    simp [Surface.lockTarget, hflip, hw]
  · intro f hf
    rcases hf with hf | hf <;> simp [Surface.lockTarget, hf]

/-- Instance of C18: a double-buffered surface, write-locked by context 1; context
2 reads, context 3 tries to flip, then context 2 asks for write access. -/
theorem write_lock_mutual_exclusion_witness :
    (Surface.create DSCAPS_DOUBLE 0).locks = []
    ∧ ((Surface.create DSCAPS_DOUBLE 0).Lock 1 DSLF_WRITE).ret_ptr = some 1
    ∧ (((((Surface.create DSCAPS_DOUBLE 0).Lock 1 DSLF_WRITE).surface.after
          [.Lock 2 DSLF_READ, .Flip 3 none DSFLIP_NONE, .Unlock 2]).Lock 2
          (DSLF_READ ||| DSLF_WRITE)).result = .DFB_LOCKED)
    ∧ ((((((Surface.create DSCAPS_DOUBLE 0).Lock 1 DSLF_WRITE).surface.after
          [.Lock 2 DSLF_READ, .Flip 3 none DSFLIP_NONE, .Unlock 2]).Unlock 1).2.Lock 2
          (DSLF_READ ||| DSLF_WRITE)).ret_ptr = some 1) :=
  have h := write_lock_mutual_exclusion (Surface.create DSCAPS_DOUBLE 0) 1 2 DSLF_WRITE
    (DSLF_READ ||| DSLF_WRITE) [.Lock 2 DSLF_READ, .Flip 3 none DSFLIP_NONE, .Unlock 2]
    rfl (by decide) (by decide) (by decide) (by decide)
  ⟨rfl, h.2.1, h.2.2.2.1, h.2.2.2.2.2.2.1⟩

/-! ## Sub-surfaces -/

/-- The line size macro as a rounded-up division. -/
theorem DFB_BYTES_PER_LINE_eq (fmt width : Nat) :
    DFB_BYTES_PER_LINE fmt width = (DFB_BITS_PER_PIXEL fmt * width + 7) / 8 :=
  Nat.shiftRight_eq_div_pow _ 3

/-- The bits of a pixel in a row are its whole bytes and the eighths left over:
`DFB_BYTES_PER_PIXEL` reads the upper three bits of the field that
`DFB_BITS_PER_PIXEL` reads. -/
theorem DFB_BITS_PER_PIXEL_split (fmt : Nat) :
    DFB_BITS_PER_PIXEL fmt = 8 * DFB_BYTES_PER_PIXEL fmt + DFB_BITS_PER_PIXEL fmt % 8 := by
  rw [DFB_BITS_PER_PIXEL_eq, DFB_BYTES_PER_PIXEL_eq]
  have d : fmt / 1048576 = fmt / 131072 / 8 := (Nat.div_div_eq_div_mul fmt 131072 8).symm
  rw [d]
  generalize fmt / 131072 = q
  omega

/-- Claim C21.  In unbounded arithmetic, for every format value and every width,
`DFB_BYTES_PER_LINE(fmt, w)` is the least `b` with
`8 * b >= DFB_BITS_PER_PIXEL(fmt) * w`; it is monotone in the width; and when
`DFB_BITS_PER_PIXEL(fmt)` is a multiple of 8 it is `DFB_BYTES_PER_PIXEL(fmt) * w`. -/
theorem bytes_per_line_is_ceiling (fmt w : Nat) :
    DFB_BITS_PER_PIXEL fmt * w ≤ 8 * DFB_BYTES_PER_LINE fmt w
    ∧ (∀ b : Nat, DFB_BITS_PER_PIXEL fmt * w ≤ 8 * b → DFB_BYTES_PER_LINE fmt w ≤ b)
    ∧ (∀ w2 : Nat, w ≤ w2 → DFB_BYTES_PER_LINE fmt w ≤ DFB_BYTES_PER_LINE fmt w2)
    ∧ (DFB_BITS_PER_PIXEL fmt % 8 = 0 →
        DFB_BYTES_PER_LINE fmt w = DFB_BYTES_PER_PIXEL fmt * w) := by
  refine ⟨?_, ?_, ?_, ?_⟩
  · rw [DFB_BYTES_PER_LINE_eq]
    generalize DFB_BITS_PER_PIXEL fmt * w = p
    omega
  · intro b hb
    rw [DFB_BYTES_PER_LINE_eq]
    generalize DFB_BITS_PER_PIXEL fmt * w = p at hb ⊢
    omega
  · intro w2 hle
    rw [DFB_BYTES_PER_LINE_eq, DFB_BYTES_PER_LINE_eq]
    exact Nat.div_le_div_right (Nat.add_le_add_right (Nat.mul_le_mul_left _ hle) 7)
  · intro hbyte
    have hsplit := DFB_BITS_PER_PIXEL_split fmt
    rw [hbyte, Nat.add_zero] at hsplit
    rw [DFB_BYTES_PER_LINE_eq, hsplit, Nat.mul_assoc]
    generalize DFB_BYTES_PER_PIXEL fmt * w = t
    omega

/-- Instance of C21: a line of 5 pixels of `DSPF_RGB24` takes 15 bytes, and a line
of 9 pixels of `DSPF_A1` takes 2 bytes, one byte being too few. -/
theorem bytes_per_line_is_ceiling_witness :
    (DFB_BITS_PER_PIXEL DSPF_RGB24 % 8 = 0
      ∧ DFB_BYTES_PER_LINE DSPF_RGB24 5 = DFB_BYTES_PER_PIXEL DSPF_RGB24 * 5)
    ∧ (DFB_BITS_PER_PIXEL DSPF_A1 * 9 ≤ 8 * 2 ∧ DFB_BYTES_PER_LINE DSPF_A1 9 ≤ 2)
    ∧ DFB_BITS_PER_PIXEL DSPF_A1 * 9 ≤ 8 * DFB_BYTES_PER_LINE DSPF_A1 9 :=
  ⟨⟨by decide, (bytes_per_line_is_ceiling DSPF_RGB24 5).2.2.2 (by decide)⟩,
   ⟨by decide, (bytes_per_line_is_ceiling DSPF_A1 9).2.1 2 (by decide)⟩,
   (bytes_per_line_is_ceiling DSPF_A1 9).1⟩

/-- Claim C22.  For every defined format, `DFB_PIXELFORMAT_ALIGNMENT(fmt) + 1` is the
smallest `n >= 1` such that `n * DFB_BITS_PER_PIXEL(fmt)` is a multiple of 8, and
it is a power of two; the alignment is not `0` exactly when
`DFB_BYTES_PER_PIXEL(fmt)` is `0`.  It is 1 for every format with a whole number
of bytes per pixel, 2 for `DSPF_A4` and `DSPF_LUT4`, 4 for `DSPF_LUT2`, 8 for
`DSPF_A1`, `DSPF_A1_LSB` and `DSPF_LUT1`, and these six are the formats without a
whole number of bytes. -/
theorem alignment_is_pixel_count_mask :
    (∀ fmt ∈ definedPixelFormats,
        ((DFB_PIXELFORMAT_ALIGNMENT fmt + 1) * DFB_BITS_PER_PIXEL fmt) % 8 = 0
        ∧ (∀ n : Nat, 1 ≤ n → (n * DFB_BITS_PER_PIXEL fmt) % 8 = 0 →
            DFB_PIXELFORMAT_ALIGNMENT fmt + 1 ≤ n)
        ∧ (∃ k : Nat, DFB_PIXELFORMAT_ALIGNMENT fmt + 1 = 2 ^ k)
        ∧ (DFB_PIXELFORMAT_ALIGNMENT fmt ≠ 0 ↔ DFB_BYTES_PER_PIXEL fmt = 0))
    ∧ (∀ fmt ∈ definedPixelFormats, DFB_BITS_PER_PIXEL fmt % 8 = 0 →
        DFB_PIXELFORMAT_ALIGNMENT fmt + 1 = 1)
    ∧ (∀ fmt ∈ [DSPF_A4, DSPF_LUT4], DFB_PIXELFORMAT_ALIGNMENT fmt + 1 = 2)
    ∧ DFB_PIXELFORMAT_ALIGNMENT DSPF_LUT2 + 1 = 4
    ∧ (∀ fmt ∈ [DSPF_A1, DSPF_A1_LSB, DSPF_LUT1], DFB_PIXELFORMAT_ALIGNMENT fmt + 1 = 8)
    ∧ definedPixelFormats.filter (fun fmt => DFB_BITS_PER_PIXEL fmt % 8 != 0)
        = [DSPF_A1, DSPF_A4, DSPF_LUT2, DSPF_A1_LSB, DSPF_LUT4, DSPF_LUT1] := by
  have hall : ∀ fmt ∈ definedPixelFormats,
      ((DFB_PIXELFORMAT_ALIGNMENT fmt + 1) * DFB_BITS_PER_PIXEL fmt) % 8 = 0
      ∧ (∀ m < DFB_PIXELFORMAT_ALIGNMENT fmt + 1, 1 ≤ m →
          (m * DFB_BITS_PER_PIXEL fmt) % 8 ≠ 0)
      ∧ (∃ k < 4, DFB_PIXELFORMAT_ALIGNMENT fmt + 1 = 2 ^ k)
      ∧ (DFB_PIXELFORMAT_ALIGNMENT fmt ≠ 0 ↔ DFB_BYTES_PER_PIXEL fmt = 0) := by decide
  refine ⟨?_, by decide, by decide, by decide, by decide, by decide⟩
  intro fmt hmem
  obtain ⟨h1, h2, ⟨k, _, hk⟩, h4⟩ := hall fmt hmem
  refine ⟨h1, ?_, ⟨k, hk⟩, h4⟩
  intro n hn hmul
  by_contra hlt
  exact h2 n (Nat.lt_of_not_le hlt) hn hmul

/-- Instance of C22 at `DSPF_LUT2`: four pixels of 2 bits fill a byte, and three do
not. -/
theorem alignment_is_pixel_count_mask_witness :
    DSPF_LUT2 ∈ definedPixelFormats
    ∧ ((DFB_PIXELFORMAT_ALIGNMENT DSPF_LUT2 + 1) * DFB_BITS_PER_PIXEL DSPF_LUT2) % 8 = 0
    ∧ DFB_PIXELFORMAT_ALIGNMENT DSPF_LUT2 + 1 = 4
    ∧ (3 * DFB_BITS_PER_PIXEL DSPF_LUT2) % 8 ≠ 0
    ∧ (DFB_PIXELFORMAT_ALIGNMENT DSPF_LUT2 ≠ 0 ↔ DFB_BYTES_PER_PIXEL DSPF_LUT2 = 0) :=
  ⟨by decide, (alignment_is_pixel_count_mask.1 DSPF_LUT2 (by decide)).1,
   alignment_is_pixel_count_mask.2.2.2.1, by decide,
   (alignment_is_pixel_count_mask.1 DSPF_LUT2 (by decide)).2.2.2⟩

/-- Claim C23.  The defined planar formats are the ten formats I420, YV12, NV12,
NV16, NV21, Y444, YV16, NV61, Y42B and YV24; each has 8 bits per pixel in a row,
and `DFB_PLANE_MULTIPLY` applied to these 8 bits gives its
`DFB_COLOR_BITS_PER_PIXEL`, which is 12, 16 or 24. -/
theorem planar_bits_match_plane_multiplier :
    definedPixelFormats.filter DFB_PLANAR_PIXELFORMAT
        = [DSPF_I420, DSPF_YV12, DSPF_NV12, DSPF_NV16, DSPF_NV21, DSPF_Y444, DSPF_YV16,
           DSPF_NV61, DSPF_Y42B, DSPF_YV24]
    ∧ (∀ fmt ∈ definedPixelFormats, DFB_PLANAR_PIXELFORMAT fmt = true →
        DFB_PLANE_MULTIPLY fmt (DFB_BITS_PER_PIXEL fmt) = DFB_COLOR_BITS_PER_PIXEL fmt
        ∧ DFB_BITS_PER_PIXEL fmt = 8
        ∧ DFB_COLOR_BITS_PER_PIXEL fmt ∈ [12, 16, 24])
    ∧ (∀ fmt ∈ quarterSizeChromaFormats, DFB_COLOR_BITS_PER_PIXEL fmt = 12)
    ∧ (∀ fmt ∈ halfSizeChromaFormats, DFB_COLOR_BITS_PER_PIXEL fmt = 16)
    ∧ (∀ fmt ∈ fullSizeChromaFormats, DFB_COLOR_BITS_PER_PIXEL fmt = 24) := by
  decide

/-- Instance of C23 at `DSPF_NV12`: 8 bits times 3/2 are its 12 bits. -/
theorem planar_bits_match_plane_multiplier_witness :
    DSPF_NV12 ∈ definedPixelFormats ∧ DFB_PLANAR_PIXELFORMAT DSPF_NV12 = true
    ∧ DFB_PLANE_MULTIPLY DSPF_NV12 (DFB_BITS_PER_PIXEL DSPF_NV12)
        = DFB_COLOR_BITS_PER_PIXEL DSPF_NV12
    ∧ DFB_COLOR_BITS_PER_PIXEL DSPF_NV12 = 12 :=
  ⟨by decide, by decide,
   (planar_bits_match_plane_multiplier.2.1 DSPF_NV12 (by decide) (by decide)).1,
   planar_bits_match_plane_multiplier.2.2.1 DSPF_NV12 (by decide)⟩

/-- In unbounded arithmetic, for `DSPF_I420`, `DSPF_YV12`, `DSPF_NV12` and
`DSPF_NV21` and every height `h`, the plane multiplier is `h` plus `h / 2` rounded
down; it is `h` plus `h / 2` rounded up exactly when `h` is even, and for odd `h`
it is one row less than that. -/
theorem DFB_PLANE_MULTIPLY_420_unbounded (h : Nat) :
    ∀ fmt ∈ [DSPF_I420, DSPF_YV12, DSPF_NV12, DSPF_NV21],
      DFB_PLANE_MULTIPLY fmt h = h + h / 2
      ∧ (DFB_PLANE_MULTIPLY fmt h = h + (h + 1) / 2 ↔ h % 2 = 0)
      ∧ (h % 2 = 1 → DFB_PLANE_MULTIPLY fmt h + 1 = h + (h + 1) / 2) := by
  intro fmt hmem
  have hall : ∀ f ∈ [DSPF_I420, DSPF_YV12, DSPF_NV12, DSPF_NV21],
      planeMultiplierBits f = 2 := by decide
  rw [DFB_PLANE_MULTIPLY_of_bits (hall fmt hmem)]
  omega

/-- An exact result that fits a non-negative `int` is the value the `int` holds. -/
theorem int32_of_fits {x : Int} (h0 : 0 ≤ x) (h1 : x < 2 ^ 31) : int32 x = x := by
  unfold int32
  have e : x % 2 ^ 32 = x := Int.emod_eq_of_lt h0 (by omega)
  rw [e, if_pos h1]

/-- The arithmetic right shift of a non-negative `int` is the logical one. -/
theorem shiftRight_natCast (n k : Nat) : (n : Int) >>> k = ((n >>> k : Nat) : Int) :=
  rfl

/-- Whenever the product fits an `int`, the `int` evaluation of the plane
multiplier macro is the unbounded one. -/
theorem DFB_PLANE_MULTIPLY_int_of_fits (fmt h : Nat)
    (hfit : (planeMultiplierBits fmt + 4) * h < 2 ^ 31) :
    DFB_PLANE_MULTIPLY_int fmt h = (DFB_PLANE_MULTIPLY fmt h : Int) := by
  unfold DFB_PLANE_MULTIPLY_int DFB_PLANE_MULTIPLY
  have hprod : ((planeMultiplierBits fmt : Int) + 4) * (h : Int)
      = (((planeMultiplierBits fmt + 4) * h : Nat) : Int) := by push_cast; ring
  have hlt : (((planeMultiplierBits fmt + 4) * h : Nat) : Int) < 2 ^ 31 := by
    exact_mod_cast hfit
  rw [hprod, int32_of_fits (Int.ofNat_nonneg _) hlt]
  exact shiftRight_natCast _ 2

/-- Claim C24, evaluated on the code at a height whose product leaves 32 bits.  For
`DSPF_I420` and the height 800000000 the product `6 * h` is reduced to 32 bits, so
the macro gives 126258176 rows, not `h + h / 2 = 1200000000`; from the height
357913942 on, where `6 * h` reaches `2 ^ 31`, the `int` product is negative. -/
theorem plane_multiply_420_wraps :
    DSPF_I420 ∈ [DSPF_I420, DSPF_YV12, DSPF_NV12, DSPF_NV21]
    ∧ DFB_PLANE_MULTIPLY_int DSPF_I420 800000000 = 126258176
    ∧ DFB_PLANE_MULTIPLY_32 DSPF_I420 800000000 = 126258176
    ∧ DFB_PLANE_MULTIPLY_int DSPF_I420 800000000 ≠ 800000000 + 800000000 / 2
    ∧ DFB_PLANE_MULTIPLY_int DSPF_I420 357913942 = -536870911
    ∧ DFB_PLANE_MULTIPLY_int DSPF_I420 357913941 = 357913941 + 357913941 / 2 := by
  decide

/-- Claim C24, amended.  For `DSPF_I420`, `DSPF_YV12`, `DSPF_NV12` and `DSPF_NV21` and
every height `h >= 0` with `6 * h < 2 ^ 31`, the macro `DFB_PLANE_MULTIPLY`,
evaluated as C evaluates it on `int`, is `h` plus `h / 2` rounded down; it is `h`
plus `h / 2` rounded up exactly when `h` is even, and for odd `h` it is one row
less than that. -/
theorem plane_multiply_420_rows (h : Nat) (hfit : 6 * h < 2 ^ 31) :
    ∀ fmt ∈ [DSPF_I420, DSPF_YV12, DSPF_NV12, DSPF_NV21],
      DFB_PLANE_MULTIPLY_int fmt h = ((h + h / 2 : Nat) : Int)
      ∧ (DFB_PLANE_MULTIPLY_int fmt h = ((h + (h + 1) / 2 : Nat) : Int) ↔ h % 2 = 0)
      ∧ (h % 2 = 1 → DFB_PLANE_MULTIPLY_int fmt h + 1 = ((h + (h + 1) / 2 : Nat) : Int)) := by
  intro fmt hmem
  have hall : ∀ f ∈ [DSPF_I420, DSPF_YV12, DSPF_NV12, DSPF_NV21],
      planeMultiplierBits f = 2 := by decide
  have hbits := hall fmt hmem
  have hint := DFB_PLANE_MULTIPLY_int_of_fits fmt h (by rw [hbits]; omega)
  have hrows := DFB_PLANE_MULTIPLY_420_unbounded h fmt hmem
  rw [hint]
  refine ⟨by rw [hrows.1], ?_, ?_⟩
  · rw [← hrows.2.1]; exact Int.ofNat_inj
  · intro hodd
    have := hrows.2.2 hodd
    exact_mod_cast this

/-- Instance of C24 (amended) at `DSPF_I420` and the odd height 5: 7 rows, one less
than `5 + 3`. -/
theorem plane_multiply_420_rows_witness :
    6 * 5 < 2 ^ 31
    ∧ DSPF_I420 ∈ [DSPF_I420, DSPF_YV12, DSPF_NV12, DSPF_NV21]
    ∧ DFB_PLANE_MULTIPLY_int DSPF_I420 (5 : Nat) = ((5 + 5 / 2 : Nat) : Int)
    ∧ 5 % 2 = 1
    ∧ DFB_PLANE_MULTIPLY_int DSPF_I420 (5 : Nat) + 1 = ((5 + (5 + 1) / 2 : Nat) : Int) :=
  ⟨by decide, by decide,
   (plane_multiply_420_rows 5 (by decide) DSPF_I420 (by decide)).1, by decide,
   (plane_multiply_420_rows 5 (by decide) DSPF_I420 (by decide)).2.2 (by decide)⟩

end DirectFB
